import Mathlib

/-!
# Sentiment-Engine: the browser controller of `static/script.js`

A shallow embedding of the class `SentimentAnalyzer` of `static/script.js`.

* JavaScript numbers are IEEE-754 doubles.  A finite double is kept as sign, mantissa and
  binary exponent; the product is rounded to 53 bits, ties to even, as the language does.
* A parsed response body is a JSON value (`JSVal`); a missing property reads as `undefined`.
* The controller object and the parts of the page it touches form the record
  `SentimentAnalyzer`; every method is a function on that record.  A method that can throw
  returns the state reached together with a flag.
* `analyzeText` is an `async` function.  It is embedded as the three synchronous segments
  that lie between its two `await` points; `Page` and `step` interleave them with the other
  event handlers of the page.
* Three library functions whose tables are not part of the script (`Number::toString`,
  `StringToNumber`, and `toUpperCase` outside ASCII) are taken as the parameter `Host`.
-/

namespace SentimentEngine

/-! ## Numbers -/

/-- A JavaScript number: `fin neg m e` is the double `(-1)^neg * m * 2^e`. -/
inductive JSNum where
  | nan
  | inf (neg : Bool)
  | fin (neg : Bool) (m : Nat) (e : Int)
deriving DecidableEq

/-- Worker of `bitLen`. -/
def bitLenAux : Nat → Nat → Nat
  | 0, _ => 0
  | fuel + 1, n => if n = 0 then 0 else bitLenAux fuel (n / 2) + 1

/-- Number of binary digits of `n` (0 for 0). -/
def bitLen (n : Nat) : Nat := bitLenAux n n

/-- Removes up to `fuel` trailing zero bits of the mantissa `m`, raising the exponent. -/
def stripTwos : Nat → Nat → Int → Nat × Int
  | 0, m, e => (m, e)
  | fuel + 1, m, e => if m % 2 = 0 then stripTwos fuel (m / 2) (e + 1) else (m, e)

/-- Canonical representation of `(-1)^neg * m * 2^e`: odd mantissa, and exponent 0 for zero. -/
def JSNum.normal (neg : Bool) (m : Nat) (e : Int) : JSNum :=
  if m = 0 then .fin neg 0 0
  else .fin neg (stripTwos (bitLen m) m e).1 (stripTwos (bitLen m) m e).2

/-- The integer nearest to `M / 2^s`, ties to the even one. -/
def roundHalfEven (M s : Nat) : Nat :=
  let q := M / 2 ^ s
  let r := M % 2 ^ s
  if 2 * r < 2 ^ s then q
  else if 2 ^ s < 2 * r then q + 1
  else if q % 2 = 0 then q else q + 1

/-- The double nearest to `(-1)^neg * M * 2^E` (round to nearest, ties to even): 53 bits of
precision, least exponent `-1074`, and infinity from `2^1024` on. -/
def JSNum.round (neg : Bool) (M : Nat) (E : Int) : JSNum :=
  let s : Nat := max (bitLen M - 53) (Int.toNat (-1074 - E))
  let q := roundHalfEven M s
  if q ≠ 0 ∧ 1024 < (bitLen q : Int) + (E + s) then .inf neg else JSNum.normal neg q (E + s)

/-- The operator `*` on numbers. -/
def JSNum.mul : JSNum → JSNum → JSNum
  | .nan, _ => .nan
  | _, .nan => .nan
  | .inf a, .inf b => .inf (a != b)
  | .inf a, .fin b m _ => if m = 0 then .nan else .inf (a != b)
  | .fin a m _, .inf b => if m = 0 then .nan else .inf (a != b)
  | .fin a m e, .fin b n f => JSNum.round (a != b) (m * n) (e + f)

/-- The double of a natural-number literal such as `100`. -/
def JSNum.ofNat (n : Nat) : JSNum := JSNum.round false n 0

/-- The double a decimal literal `n / 10^k` (such as `0.42`, `n = 42`, `k = 2`) denotes:
the quotient is taken with 55 extra bits and a sticky bit, then rounded. -/
def JSNum.ofDecimal (n k : Nat) : JSNum :=
  let d := 10 ^ k
  let t := bitLen d + 55
  let sticky := if (n * 2 ^ t) % d = 0 then 0 else 1
  JSNum.round false (2 * ((n * 2 ^ t) / d) + sticky) (-(t : Int) - 1)

/-- Truthiness of a number: `0`, `-0` and `NaN` are falsy. -/
def JSNum.truthy : JSNum → Bool
  | .nan => false
  | .inf _ => true
  | .fin _ m _ => m != 0

/-- Whether `m * 2^e ≤ k`. -/
def magLe (m : Nat) (e : Int) (k : Nat) : Bool :=
  if 0 ≤ e then decide (m * 2 ^ e.toNat ≤ k) else decide (m ≤ k * 2 ^ (-e).toNat)

/-- Whether the number lies in the closed interval `[0, k]` (as `0 <= x && x <= k` decides:
`NaN` and the infinities do not, `-0` does). -/
def JSNum.within (k : Nat) : JSNum → Bool
  | .nan => false
  | .inf _ => false
  | .fin neg m e => (!neg || m == 0) && magLe m e k

/-! ## Values -/

/-- A JavaScript value as `response.json()` produces it, and `undefined` for what reading a
missing property gives. -/
inductive JSVal where
  | undefined
  | null
  | bool (b : Bool)
  | num (n : JSNum)
  | str (s : String)
  | arr (xs : List JSVal)
  | obj (fields : List (String × JSVal))

/-- Library functions of the host whose tables are not part of the script. -/
structure Host where
  /-- The method `toUpperCase` on a one-character string outside ASCII. -/
  toUpperCase : Char → String
  /-- The conversion `Number::toString`. -/
  numberToString : JSNum → String
  /-- The conversion `StringToNumber`. -/
  stringToNumber : String → JSNum

/-- Truthiness (`ToBoolean`), which the operator `||` tests. -/
def JSVal.truthy : JSVal → Bool
  | .undefined => false
  | .null => false
  | .bool b => b
  | .num n => n.truthy
  | .str s => s != ""
  | .arr _ => true
  | .obj _ => true

/-- The operator `a || b`: `a` when it is truthy, else `b`. -/
def JSVal.or (a b : JSVal) : JSVal := if a.truthy then a else b

/-- Reading `v.key` for a key that no built-in prototype defines (so for each of the five
keys the script reads): `none` is the `TypeError` of reading a property of `null` or
`undefined`; a value without the property gives `undefined`. -/
def JSVal.get (v : JSVal) (key : String) : Option JSVal :=
  match v with
  | .undefined => none
  | .null => none
  | .obj fields => some ((fields.lookup key).getD .undefined)
  | _ => some .undefined

/-- The property `key` of a value that is neither `null` nor `undefined`; `undefined` when
the property is missing. -/
def JSVal.field (v : JSVal) (key : String) : JSVal := (v.get key).getD .undefined

/-- Whether the value is a primitive: anything but an array or an object. -/
def JSVal.isPrimitive : JSVal → Bool
  | .arr _ => false
  | .obj _ => false
  | _ => true

/-- Whether the value is `undefined` or `null`. -/
def JSVal.isNullish : JSVal → Bool
  | .undefined => true
  | .null => true
  | _ => false

mutual
/-- The conversion `ToString`; `none` is a thrown `TypeError`.  An object parsed from JSON
converts through `Object.prototype.toString`, unless it has an own property `toString`, which
cannot be callable; an array converts through `join`. -/
def JSVal.toStr (h : Host) : JSVal → Option String
  | .undefined => some "undefined"
  | .null => some "null"
  | .bool b => some (if b then "true" else "false")
  | .num n => some (h.numberToString n)
  | .str s => some s
  | .arr xs => JSVal.join h xs
  | .obj fields =>
    if (fields.map Prod.fst).contains "toString" then none else some "[object Object]"
/-- The method `Array.prototype.join` with the separator `,`: an element that is `undefined`
or `null` gives the empty string, any other its `ToString`. -/
def JSVal.join (h : Host) : List JSVal → Option String
  | [] => some ""
  | x :: xs =>
    match (if x.isNullish then some "" else JSVal.toStr h x), JSVal.join h xs with
    | some a, some b => some (if xs.isEmpty then a else a ++ "," ++ b)
    | _, _ => none
end

/-- The conversion `ToNumber`; `none` is a thrown `TypeError`.  Arrays and objects convert to
a primitive first (their `valueOf` returns the object itself, so `toString` decides). -/
def JSVal.toNumber (h : Host) : JSVal → Option JSNum
  | .undefined => some .nan
  | .null => some (.fin false 0 0)
  | .bool b => some (if b then JSNum.ofNat 1 else .fin false 0 0)
  | .num n => some n
  | .str s => some (h.stringToNumber s)
  | .arr xs => (JSVal.toStr h (.arr xs)).map h.stringToNumber
  | .obj fields => (JSVal.toStr h (.obj fields)).map h.stringToNumber

/-- The operator `v * 100` of line 105. -/
def JSVal.times100 (h : Host) (v : JSVal) : Option JSVal :=
  (v.toNumber h).map (fun n => .num (n.mul (JSNum.ofNat 100)))

/-- Whether the value is a number in `[0, k]`. -/
def JSVal.numWithin (k : Nat) : JSVal → Bool
  | .num n => n.within k
  | _ => false

/-! ## Strings -/

/-- White space and line terminators, which `String.prototype.trim` removes. -/
def isTrimChar (c : Char) : Bool :=
  let n := c.toNat
  n == 0x09 || n == 0x0A || n == 0x0B || n == 0x0C || n == 0x0D || n == 0x20 || n == 0xA0 ||
  n == 0x1680 || (0x2000 ≤ n && n ≤ 0x200A) || n == 0x2028 || n == 0x2029 || n == 0x202F ||
  n == 0x205F || n == 0x3000 || n == 0xFEFF

/-- The method `String.prototype.trim`. -/
def trim (s : String) : String :=
  String.mk ((s.data.dropWhile isTrimChar).reverse.dropWhile isTrimChar).reverse

/-- The expression `c.toUpperCase()` for the first UTF-16 unit of a string whose first
character is `c`: fixed on ASCII, the host table on the rest of the basic plane; beyond it
`charAt(0)` is a lone surrogate, which has no upper case. -/
def upperFirst (h : Host) (c : Char) : String :=
  if c.toNat < 128 then String.singleton c.toUpper
  else if c.toNat < 0x10000 then h.toUpperCase c
  else String.singleton c

/-- The expression `t.charAt(0).toUpperCase() + t.slice(1)` of line 123. -/
def capitalize (h : Host) (t : String) : String :=
  match t.data with
  | [] => ""
  | c :: cs => upperFirst h c ++ String.mk cs

/-! ## The controller -/

/-- The object `SentimentAnalyzer` with the parts of the page it reads and writes.  A field
`x_hidden` tells whether the class list of element `x` holds `hidden`.  The last three fields
are the environment: the percentage captured by each pending `setTimeout` callback, the
messages passed to `alert`, and the text posted by each `fetch` to `/api/analyze`. -/
structure SentimentAnalyzer where
  isAnalyzing : Bool
  textInput_value : String
  languageSelect_value : String
  analyzeBtn_disabled : Bool
  analyzeBtn_textContent : String
  initialState_hidden : Bool
  loadingState_hidden : Bool
  resultsContent_hidden : Bool
  sentimentIcon_textContent : String
  sentimentLabel_textContent : String
  sentimentLabel_className : String
  confidenceProgress_width : String
  detectedLanguage_textContent : String
  processingTime_textContent : String
  timers : List JSVal
  alerts : List String
  fetches : List String

/-- The state a synchronous block ends in, and whether it ended by a throw. -/
structure Outcome where
  state : SentimentAnalyzer
  threw : Bool

/-- The method `updateAnalyzeButton` (lines 54-58). -/
def updateAnalyzeButton (s : SentimentAnalyzer) : SentimentAnalyzer :=
  let hasText := decide (0 < (trim s.textInput_value).length)
  { s with
    analyzeBtn_disabled := !hasText || s.isAnalyzing
    analyzeBtn_textContent := if s.isAnalyzing then "Analyzing..." else "Analyze Sentiment" }

/-- The method `showLoadingState` (lines 134-138). -/
def showLoadingState (s : SentimentAnalyzer) : SentimentAnalyzer :=
  { s with initialState_hidden := true, resultsContent_hidden := true, loadingState_hidden := false }

/-- The method `showInitialState` (lines 145-149). -/
def showInitialState (s : SentimentAnalyzer) : SentimentAnalyzer :=
  { s with loadingState_hidden := true, resultsContent_hidden := true, initialState_hidden := false }

/-- The method `showError` (lines 140-143). -/
def showError (s : SentimentAnalyzer) (message : String) : SentimentAnalyzer :=
  showInitialState { s with alerts := s.alerts ++ [message] }

/-- The method `updateConfidence` (lines 127-132): it only schedules the callback. -/
def updateConfidence (s : SentimentAnalyzer) (percentage : JSVal) : SentimentAnalyzer :=
  { s with timers := s.timers ++ [percentage] }

/-- The callback of `updateConfidence` (line 130), run for the oldest pending timer; the
field `confidenceProgress_width` is the string assigned to `style.width`.  A `TypeError` of
the template literal is uncaught and assigns nothing. -/
def fireTimer (h : Host) (s : SentimentAnalyzer) : SentimentAnalyzer :=
  match s.timers with
  | [] => s
  | percentage :: rest =>
    match percentage.toStr h with
    | some t => { s with timers := rest, confidenceProgress_width := t ++ "%" }
    | none => { s with timers := rest }

/-- An entry of the table `sentimentConfig`. -/
structure SentimentStyle where
  icon : String
  color : String

/-- The table `sentimentConfig` (lines 114-118), the icons as the source file spells them. -/
def sentimentConfig : List (String × SentimentStyle) :=
  [("positive", ⟨"\uF8FF\u00FC\u00F2\u00E4", "#10b981"⟩),
   ("negative", ⟨"\uF8FF\u00FC\u00F2\u00FB", "#ef4444"⟩),
   ("neutral", ⟨"\uF8FF\u00FC\u00F2\u00EA", "#f59e0b"⟩)]

/-- The property names `sentimentConfig` inherits from `Object.prototype`; each holds a truthy
value that has no property `icon`. -/
def objectPrototypeKeys : List String :=
  ["constructor", "__defineGetter__", "__defineSetter__", "hasOwnProperty",
   "__lookupGetter__", "__lookupSetter__", "isPrototypeOf", "propertyIsEnumerable",
   "toString", "valueOf", "__proto__", "toLocaleString"]

/-- The text that lines 120-122 store in the icon for the property key `key`:
`(sentimentConfig[key] || sentimentConfig.neutral).icon`; storing `undefined` in
`textContent` stores the empty string. -/
def configIcon (key : String) : String :=
  match sentimentConfig.lookup key with
  | some config => config.icon
  | none =>
    if objectPrototypeKeys.contains key then ""
    else
      match sentimentConfig.lookup "neutral" with
      | some config => config.icon
      | none => ""

/-- The method `updateSentimentDisplay` (lines 113-125).  The key conversion of line 120 can
throw; line 123 throws unless `sentiment` is a string, after line 122 has set the icon. -/
def updateSentimentDisplay (h : Host) (s : SentimentAnalyzer) (sentiment : JSVal) : Outcome :=
  match sentiment.toStr h with
  | none => ⟨s, true⟩
  | some key =>
    let s1 := { s with sentimentIcon_textContent := configIcon key }
    match sentiment with
    | .str t =>
      ⟨{ s1 with
          sentimentLabel_textContent := capitalize h t
          sentimentLabel_className := "sentiment-label " ++ t }, false⟩
    | _ => ⟨s1, true⟩

/-- The expression `result.confidence_percentage || (result.confidence * 100)` of line 105,
for a `result` that is neither `null` nor `undefined`; `none` is a thrown `TypeError`. -/
def confidenceOf (h : Host) (result : JSVal) : Option JSVal :=
  if (result.field "confidence_percentage").truthy then some (result.field "confidence_percentage")
  else (result.field "confidence").times100 h

/-- The method `displayResults` (lines 94-111). -/
def displayResults (h : Host) (s : SentimentAnalyzer) (result : JSVal) : Outcome :=
  let s1 := { s with
    initialState_hidden := true, loadingState_hidden := true, resultsContent_hidden := false }
  match result.get "sentiment" with
  | none => ⟨s1, true⟩
  | some sentiment =>
    let o := updateSentimentDisplay h s1 sentiment
    if o.threw then o
    else
      match confidenceOf h result with
      | none => ⟨o.state, true⟩
      | some confidence =>
        let s3 := updateConfidence o.state confidence
        match ((result.field "language_name").or (.str "Unknown")).toStr h with
        | none => ⟨s3, true⟩
        | some language =>
          let s4 := { s3 with detectedLanguage_textContent := language }
          match ((result.field "processing_time").or
              (.num (JSNum.ofNat 0))).toStr h with
          | none => ⟨s4, true⟩
          | some time => ⟨{ s4 with processingTime_textContent := time ++ "s" }, false⟩

/-- The `catch` block of `analyzeText` (lines 85-87). -/
def catchBlock (s : SentimentAnalyzer) : SentimentAnalyzer :=
  showError s "Failed to analyze text. Please try again."

/-- The `finally` block of `analyzeText` (lines 88-91). -/
def finallyBlock (s : SentimentAnalyzer) : SentimentAnalyzer :=
  updateAnalyzeButton { s with isAnalyzing := false }

/-- Whether `analyzeText` passes the guard of line 63 and goes on to call `fetch`. -/
def dispatches (s : SentimentAnalyzer) : Bool :=
  !(trim s.textInput_value == "" || s.isAnalyzing)

/-- The method `analyzeText` up to its first `await` (lines 60-76): the guard, and when it
passes, the flag, the loading panel, the button and the call of `fetch`. -/
def analyzeText (s : SentimentAnalyzer) : SentimentAnalyzer :=
  let text := trim s.textInput_value
  if text == "" || s.isAnalyzing then s
  else
    let s1 := updateAnalyzeButton (showLoadingState { s with isAnalyzing := true })
    { s1 with fetches := s1.fetches ++ [text] }

/-- The method `analyzeText` from the moment `fetch` settles (lines 76-82), in the state `s`
the page is in by then.  `none`: the promise rejected; `some ok`: a response with that `ok`
flag.  The flag of the result tells whether the call is now waiting for `response.json()`. -/
def analyzeText_afterFetch (s : SentimentAnalyzer) (response : Option Bool) :
    SentimentAnalyzer × Bool :=
  match response with
  | some true => (s, true)
  | some false => (finallyBlock (catchBlock s), false)
  | none => (finallyBlock (catchBlock s), false)

/-- The method `analyzeText` from the moment `response.json()` settles (lines 82-91), in the
state `s` the page is in by then.  `none`: the body did not parse. -/
def analyzeText_afterJson (h : Host) (s : SentimentAnalyzer) (body : Option JSVal) :
    SentimentAnalyzer :=
  match body with
  | none => finallyBlock (catchBlock s)
  | some result =>
    let o := displayResults h s result
    if o.threw then finallyBlock (catchBlock o.state) else finallyBlock o.state

/-- The method `clearAll` (lines 151-157). -/
def clearAll (s : SentimentAnalyzer) : SentimentAnalyzer :=
  updateAnalyzeButton
    (showInitialState { s with textInput_value := "", languageSelect_value := "auto" })

/-- How a dispatched request ends. -/
inductive NetResult where
  | transportError
  | badStatus
  | badBody
  | json (result : JSVal)

/-- A whole call of `analyzeText` with nothing else running in between: the request ends as
`r` tells. -/
def analyzeText_run (h : Host) (s : SentimentAnalyzer) (r : NetResult) : SentimentAnalyzer :=
  if dispatches s then
    match r with
    | .transportError => (analyzeText_afterFetch (analyzeText s) none).1
    | .badStatus => (analyzeText_afterFetch (analyzeText s) (some false)).1
    | .badBody =>
      analyzeText_afterJson h (analyzeText_afterFetch (analyzeText s) (some true)).1 none
    | .json result =>
      analyzeText_afterJson h (analyzeText_afterFetch (analyzeText s) (some true)).1 (some result)
  else analyzeText s

/-! ## The page as an event loop -/

/-- The controller together with the number of `analyzeText` calls suspended at each of the
two `await` points. -/
structure Page where
  app : SentimentAnalyzer
  awaitingFetch : Nat
  awaitingJson : Nat

/-- What the event loop can run next: the two buttons (the keyboard shortcut is `analyze`
too), typing, the settling of a pending promise, and a timer. -/
inductive Event where
  | analyze
  | clear
  | input (value : String)
  | fetchSettled (response : Option Bool)
  | jsonSettled (body : Option JSVal)
  | timeout

/-- One turn of the event loop.  A settling event without a call waiting for it cannot occur
and changes nothing. -/
def step (h : Host) (p : Page) : Event → Page
  | .analyze =>
    { p with
      app := analyzeText p.app
      awaitingFetch := if dispatches p.app then p.awaitingFetch + 1 else p.awaitingFetch }
  | .clear => { p with app := clearAll p.app }
  | .input value => { p with app := updateAnalyzeButton { p.app with textInput_value := value } }
  | .fetchSettled response =>
    if p.awaitingFetch = 0 then p
    else
      { app := (analyzeText_afterFetch p.app response).1
        awaitingFetch := p.awaitingFetch - 1
        awaitingJson :=
          if (analyzeText_afterFetch p.app response).2 then p.awaitingJson + 1
          else p.awaitingJson }
  | .jsonSettled body =>
    if p.awaitingJson = 0 then p
    else { p with app := analyzeText_afterJson h p.app body, awaitingJson := p.awaitingJson - 1 }
  | .timeout => { p with app := fireTimer h p.app }

/-- The event loop run over a list of events. -/
def run (h : Host) (p : Page) (events : List Event) : Page :=
  events.foldl (step h) p

/-- The page once the class is constructed (lines 2-25 and 51) over the document `dom`:
the flag is false, the button is evaluated, nothing is pending. -/
def construct (dom : SentimentAnalyzer) : Page :=
  { app := updateAnalyzeButton { dom with isAnalyzing := false, timers := [], alerts := [], fetches := [] }
    awaitingFetch := 0
    awaitingJson := 0 }

/-! ## The panels -/

/-- The state Idle of the interface: only the initial panel is not hidden. -/
def panelIdle (s : SentimentAnalyzer) : Prop :=
  s.initialState_hidden = false ∧ s.loadingState_hidden = true ∧ s.resultsContent_hidden = true

/-- The state Loading of the interface: only the loading panel is not hidden. -/
def panelLoading (s : SentimentAnalyzer) : Prop :=
  s.initialState_hidden = true ∧ s.loadingState_hidden = false ∧ s.resultsContent_hidden = true

/-- The state Result of the interface: only the results panel is not hidden. -/
def panelResult (s : SentimentAnalyzer) : Prop :=
  s.initialState_hidden = true ∧ s.loadingState_hidden = true ∧ s.resultsContent_hidden = false

/-- The fields that lines 105-110 convert are JSON scalars or missing. -/
def scalarFields (result : JSVal) : Bool :=
  (result.field "confidence").isPrimitive && (result.field "language_name").isPrimitive &&
    (result.field "processing_time").isPrimitive

/-- Exactly one of the three panels is not hidden. -/
def onePanel (s : SentimentAnalyzer) : Prop :=
  panelIdle s ∨ panelLoading s ∨ panelResult s

/-- The panels that are not hidden, by the name of their element. -/
def shownPanels (s : SentimentAnalyzer) : List String :=
  (if s.initialState_hidden then [] else ["initialState"]) ++
  (if s.loadingState_hidden then [] else ["loadingState"]) ++
  (if s.resultsContent_hidden then [] else ["resultsContent"])

/-- The two panel visibilities agree. -/
def samePanels (s t : SentimentAnalyzer) : Prop :=
  s.initialState_hidden = t.initialState_hidden ∧ s.loadingState_hidden = t.loadingState_hidden ∧
    s.resultsContent_hidden = t.resultsContent_hidden

/-- The single-flight invariant of the event loop: at most one call of `analyzeText` is
suspended, and the flag is set exactly while one is. -/
def singleFlight (p : Page) : Prop :=
  p.awaitingFetch + p.awaitingJson ≤ 1 ∧
    (p.app.isAnalyzing = true ↔ p.awaitingFetch + p.awaitingJson = 1)

/-- The message of the `catch` block. -/
def failureMessage : String := "Failed to analyze text. Please try again."

/-! ## Sample data -/

/-- A host used to run the definitions on samples; its tables hold what the samples need. -/
def sampleHost : Host where
  toUpperCase := fun c => String.singleton c
  numberToString := fun n =>
    if n = JSNum.ofDecimal 12 2 then "0.12"
    else if n = JSNum.ofNat 0 then "0"
    else if n = JSNum.ofNat 91 then "91"
    else "NaN"
  stringToNumber := fun _ => .nan

/-- The number inside a value, if it is one. -/
def JSVal.asNum : JSVal → Option JSNum
  | .num n => some n
  | _ => none

/-- The normalization rule in the words of the specification: `confidence_percentage` if
present; else `confidence * 100` if present; else `0`.  A field is present when reading it
does not give `undefined`. -/
def specConfidencePercent (h : Host) (raw : JSVal) : Option JSVal :=
  match raw.field "confidence_percentage" with
  | .undefined =>
    match raw.field "confidence" with
    | .undefined => some (.num (JSNum.ofNat 0))
    | c => c.times100 h
  | cp => some cp

/-- The success response of the end-to-end example:
`sentiment: "positive", confidence: 0.91, language_name: "English", processing_time: 0.12`. -/
def sampleResponse : JSVal :=
  .obj [("sentiment", .str "positive"), ("confidence", .num (JSNum.ofDecimal 91 2)),
    ("language_name", .str "English"), ("processing_time", .num (JSNum.ofDecimal 12 2))]

/-- A response that carries both representations of the confidence, the percentage being 0:
`sentiment: "positive", confidence_percentage: 0, confidence: 0.5`. -/
def zeroPercentResponse : JSVal :=
  .obj [("sentiment", .str "positive"), ("confidence_percentage", .num (JSNum.ofNat 0)),
    ("confidence", .num (JSNum.ofDecimal 5 1))]

/-- A response that carries the sentiment only: `sentiment: "positive"`. -/
def bareResponse : JSVal := .obj [("sentiment", .str "positive")]

/-- A response with a percentage beyond 100: `sentiment: "positive",
confidence_percentage: 150`. -/
def overResponse : JSVal :=
  .obj [("sentiment", .str "positive"), ("confidence_percentage", .num (JSNum.ofNat 150))]

/-- A response with a sentiment outside the table: `sentiment: "ecstatic"`. -/
def ecstaticResponse : JSVal := .obj [("sentiment", .str "ecstatic")]

/-- A response whose language is an object with an own property `toString`:
`sentiment: "positive", language_name: (toString: null)`. -/
def objectLanguageResponse : JSVal :=
  .obj [("sentiment", .str "positive"), ("language_name", .obj [("toString", .null)])]

/-- A response without a sentiment: `language_name: "English"`. -/
def languageOnlyResponse : JSVal := .obj [("language_name", .str "English")]

/-- A document as the page loads it: the initial panel shown, the other two hidden. -/
def sampleDom (text : String) : SentimentAnalyzer where
  isAnalyzing := false
  textInput_value := text
  languageSelect_value := "auto"
  analyzeBtn_disabled := false
  analyzeBtn_textContent := "Analyze Sentiment"
  initialState_hidden := false
  loadingState_hidden := true
  resultsContent_hidden := true
  sentimentIcon_textContent := ""
  sentimentLabel_textContent := ""
  sentimentLabel_className := ""
  confidenceProgress_width := ""
  detectedLanguage_textContent := ""
  processingTime_textContent := ""
  timers := []
  alerts := []
  fetches := []


/-! ## Basic facts about the methods -/

section Basics

variable (h : Host) (s : SentimentAnalyzer)

@[simp]
theorem updateAnalyzeButton_isAnalyzing :
    (updateAnalyzeButton s).isAnalyzing = s.isAnalyzing := rfl

@[simp]
theorem updateAnalyzeButton_textInput :
    (updateAnalyzeButton s).textInput_value = s.textInput_value := rfl

@[simp]
theorem updateAnalyzeButton_alerts : (updateAnalyzeButton s).alerts = s.alerts := rfl

@[simp]
theorem updateAnalyzeButton_fetches : (updateAnalyzeButton s).fetches = s.fetches := rfl

@[simp]
theorem updateAnalyzeButton_timers : (updateAnalyzeButton s).timers = s.timers := rfl

@[simp]
theorem updateAnalyzeButton_initial :
    (updateAnalyzeButton s).initialState_hidden = s.initialState_hidden := rfl

@[simp]
theorem updateAnalyzeButton_loading :
    (updateAnalyzeButton s).loadingState_hidden = s.loadingState_hidden := rfl

@[simp]
theorem updateAnalyzeButton_results :
    (updateAnalyzeButton s).resultsContent_hidden = s.resultsContent_hidden := rfl

theorem panelIdle_showInitialState : panelIdle (showInitialState s) := ⟨rfl, rfl, rfl⟩

theorem panelLoading_showLoadingState : panelLoading (showLoadingState s) := ⟨rfl, rfl, rfl⟩

theorem panelIdle_catchBlock : panelIdle (catchBlock s) := ⟨rfl, rfl, rfl⟩

@[simp]
theorem catchBlock_alerts : (catchBlock s).alerts = s.alerts ++ [failureMessage] := rfl

@[simp]
theorem catchBlock_isAnalyzing : (catchBlock s).isAnalyzing = s.isAnalyzing := rfl

@[simp]
theorem catchBlock_textInput : (catchBlock s).textInput_value = s.textInput_value := rfl

@[simp]
theorem catchBlock_fetches : (catchBlock s).fetches = s.fetches := rfl

@[simp]
theorem finallyBlock_isAnalyzing : (finallyBlock s).isAnalyzing = false := rfl

@[simp]
theorem finallyBlock_textInput :
    (finallyBlock s).textInput_value = s.textInput_value := rfl

@[simp]
theorem finallyBlock_alerts : (finallyBlock s).alerts = s.alerts := rfl

@[simp]
theorem finallyBlock_fetches : (finallyBlock s).fetches = s.fetches := rfl

@[simp]
theorem finallyBlock_timers : (finallyBlock s).timers = s.timers := rfl

theorem finallyBlock_samePanels : samePanels (finallyBlock s) s := ⟨rfl, rfl, rfl⟩

theorem finallyBlock_button :
    (finallyBlock s).analyzeBtn_textContent = "Analyze Sentiment" ∧
      (finallyBlock s).analyzeBtn_disabled = !decide (0 < (trim s.textInput_value).length) := by
  simp [finallyBlock, updateAnalyzeButton]

theorem clearAll_isAnalyzing : (clearAll s).isAnalyzing = s.isAnalyzing := rfl

theorem panelIdle_clearAll : panelIdle (clearAll s) := ⟨rfl, rfl, rfl⟩

theorem panelIdle_of_same {a b : SentimentAnalyzer} (hab : samePanels a b) (hb : panelIdle b) :
    panelIdle a := by
  obtain ⟨h1, h2, h3⟩ := hab
  obtain ⟨g1, g2, g3⟩ := hb
  exact ⟨h1.trans g1, h2.trans g2, h3.trans g3⟩

theorem panelResult_of_same {a b : SentimentAnalyzer} (hab : samePanels a b)
    (hb : panelResult b) : panelResult a := by
  obtain ⟨h1, h2, h3⟩ := hab
  obtain ⟨g1, g2, g3⟩ := hb
  exact ⟨h1.trans g1, h2.trans g2, h3.trans g3⟩

theorem onePanel_of_same {a b : SentimentAnalyzer} (hab : samePanels a b) (hb : onePanel b) :
    onePanel a := by
  obtain ⟨h1, h2, h3⟩ := hab
  unfold onePanel panelIdle panelLoading panelResult at *
  rw [h1, h2, h3]
  exact hb

/-- The guard of line 63, spelled on the state. -/
theorem dispatches_eq_true_iff :
    dispatches s = true ↔ trim s.textInput_value ≠ "" ∧ s.isAnalyzing = false := by
  simp [dispatches]

theorem dispatches_eq_false_iff :
    dispatches s = false ↔ trim s.textInput_value = "" ∨ s.isAnalyzing = true := by
  simp only [dispatches, Bool.not_eq_false_eq_eq_true, Bool.or_eq_true, beq_iff_eq]

/-- A call the guard rejects returns at once and changes nothing. -/
theorem analyzeText_of_not_dispatches (hd : dispatches s = false) : analyzeText s = s := by
  have hd2 : (trim s.textInput_value == "" || s.isAnalyzing) = true := by
    simpa only [dispatches, Bool.not_eq_false_eq_eq_true] using hd
  simp [analyzeText, hd2]

/-- A call the guard lets through: the state at the first `await`. -/
theorem analyzeText_of_dispatches (hd : dispatches s = true) :
    analyzeText s =
      { updateAnalyzeButton (showLoadingState { s with isAnalyzing := true }) with
        fetches := s.fetches ++ [trim s.textInput_value] } := by
  have hd2 : (trim s.textInput_value == "" || s.isAnalyzing) = false := by
    simpa [dispatches] using hd
  simp [analyzeText, hd2, showLoadingState, updateAnalyzeButton]

end Basics

/-! ## Facts about rendering -/

section Rendering

variable (h : Host) (s : SentimentAnalyzer)

/-- What `updateSentimentDisplay` leaves alone. -/
theorem updateSentimentDisplay_frame (v : JSVal) :
    let o := updateSentimentDisplay h s v
    samePanels o.state s ∧ o.state.isAnalyzing = s.isAnalyzing ∧
      o.state.textInput_value = s.textInput_value ∧ o.state.alerts = s.alerts ∧
      o.state.fetches = s.fetches ∧ o.state.timers = s.timers ∧
      o.state.detectedLanguage_textContent = s.detectedLanguage_textContent := by
  unfold updateSentimentDisplay
  cases hk : v.toStr h with
  | none => exact ⟨⟨rfl, rfl, rfl⟩, rfl, rfl, rfl, rfl, rfl, rfl⟩
  | some key => cases v <;> exact ⟨⟨rfl, rfl, rfl⟩, rfl, rfl, rfl, rfl, rfl, rfl⟩

/-- The display of a sentiment that is a string. -/
theorem updateSentimentDisplay_str (t : String) :
    updateSentimentDisplay h s (.str t) =
      ⟨{ s with
          sentimentIcon_textContent := configIcon t
          sentimentLabel_textContent := capitalize h t
          sentimentLabel_className := "sentiment-label " ++ t }, false⟩ := by
  simp [updateSentimentDisplay, JSVal.toStr]

/-- The display throws for every sentiment that is not a string. -/
theorem updateSentimentDisplay_threw (v : JSVal) (hv : ∀ t, v ≠ .str t) :
    (updateSentimentDisplay h s v).threw = true := by
  unfold updateSentimentDisplay
  cases hk : v.toStr h with
  | none => rfl
  | some key =>
    cases v with
    | str t => exact absurd rfl (hv t)
    | _ => rfl

/-- What `displayResults` leaves alone, and the panel it shows, whatever the body is and
whether or not it throws. -/
theorem displayResults_frame (result : JSVal) :
    let o := displayResults h s result
    panelResult o.state ∧ o.state.isAnalyzing = s.isAnalyzing ∧
      o.state.textInput_value = s.textInput_value ∧ o.state.alerts = s.alerts ∧
      o.state.fetches = s.fetches := by
  unfold displayResults
  cases hg : result.get "sentiment" with
  | none => exact ⟨⟨rfl, rfl, rfl⟩, rfl, rfl, rfl, rfl⟩
  | some sentiment =>
    obtain ⟨hp, h1, h2, h3, h4, -, -⟩ := updateSentimentDisplay_frame h
      { s with initialState_hidden := true, loadingState_hidden := true,
               resultsContent_hidden := false } sentiment
    have hp2 : panelResult (updateSentimentDisplay h
      { s with initialState_hidden := true, loadingState_hidden := true,
               resultsContent_hidden := false } sentiment).state :=
      panelResult_of_same hp ⟨rfl, rfl, rfl⟩
    simp only
    split
    · exact ⟨hp2, h1, h2, h3, h4⟩
    · split
      · exact ⟨hp2, h1, h2, h3, h4⟩
      · split
        · exact ⟨hp2, h1, h2, h3, h4⟩
        · split
          · exact ⟨hp2, h1, h2, h3, h4⟩
          · exact ⟨hp2, h1, h2, h3, h4⟩

/-- The body `null` makes `displayResults` throw at line 101. -/
theorem displayResults_null : (displayResults h s .null).threw = true := rfl

/-- A body whose sentiment is not a string makes `displayResults` throw. -/
theorem displayResults_threw_of_sentiment (result v : JSVal)
    (hg : result.get "sentiment" = some v) (hv : ∀ t, v ≠ .str t) :
    (displayResults h s result).threw = true := by
  unfold displayResults
  simp only [hg]
  rw [if_pos (updateSentimentDisplay_threw h _ v hv)]
  exact updateSentimentDisplay_threw h _ v hv

/-- The state in which a throwing sentiment display leaves the language. -/
theorem displayResults_language_of_sentiment (result v : JSVal)
    (hg : result.get "sentiment" = some v) (hv : ∀ t, v ≠ .str t) :
    (displayResults h s result).state.detectedLanguage_textContent =
      s.detectedLanguage_textContent := by
  unfold displayResults
  simp only [hg]
  rw [if_pos (updateSentimentDisplay_threw h _ v hv)]
  exact (updateSentimentDisplay_frame h _ v).2.2.2.2.2.2

/-- The normal path of `displayResults`: the sentiment is a string and the three later
conversions do not throw. -/
theorem displayResults_ok (result confidence : JSVal) (t language time : String)
    (hg : result.get "sentiment" = some (.str t))
    (hc : confidenceOf h result = some confidence)
    (hl : ((result.field "language_name").or (.str "Unknown")).toStr h
      = some language)
    (hp : ((result.field "processing_time").or (.num (JSNum.ofNat 0))).toStr h
      = some time) :
    displayResults h s result =
      ⟨{ s with
          initialState_hidden := true
          loadingState_hidden := true
          resultsContent_hidden := false
          sentimentIcon_textContent := configIcon t
          sentimentLabel_textContent := capitalize h t
          sentimentLabel_className := "sentiment-label " ++ t
          timers := s.timers ++ [confidence]
          detectedLanguage_textContent := language
          processingTime_textContent := time ++ "s" }, false⟩ := by
  unfold displayResults
  simp [hg, hc, hl, hp, updateSentimentDisplay_str, updateConfidence]

/-- The path of `displayResults` up to the confidence: the sentiment is a string and line 105
does not throw. -/
theorem displayResults_timers (result confidence : JSVal) (t : String)
    (hg : result.get "sentiment" = some (.str t))
    (hc : confidenceOf h result = some confidence) :
    (displayResults h s result).state.timers = s.timers ++ [confidence] := by
  unfold displayResults
  simp only [hg, hc, updateSentimentDisplay_str, updateConfidence]
  simp only [Bool.false_eq_true, if_false]
  split
  · rfl
  · split <;> rfl

/-- The language shown once line 109 is reached. -/
theorem displayResults_language (result confidence : JSVal) (t language : String)
    (hg : result.get "sentiment" = some (.str t))
    (hc : confidenceOf h result = some confidence)
    (hl : ((result.field "language_name").or (.str "Unknown")).toStr h = some language) :
    (displayResults h s result).state.detectedLanguage_textContent = language := by
  unfold displayResults
  simp only [hg, hc, hl, updateSentimentDisplay_str, updateConfidence]
  simp only [Bool.false_eq_true, if_false]
  split <;> rfl

/-- The sentiment display of a response whose sentiment is a string, whatever follows. -/
theorem displayResults_sentiment (result : JSVal) (t : String)
    (hg : result.get "sentiment" = some (.str t)) :
    (displayResults h s result).state.sentimentIcon_textContent = configIcon t ∧
      (displayResults h s result).state.sentimentLabel_textContent = capitalize h t ∧
      (displayResults h s result).state.sentimentLabel_className = "sentiment-label " ++ t := by
  unfold displayResults
  simp only [hg, updateSentimentDisplay_str, updateConfidence]
  simp only [Bool.false_eq_true, if_false]
  split
  · exact ⟨rfl, rfl, rfl⟩
  · split
    · exact ⟨rfl, rfl, rfl⟩
    · split <;> exact ⟨rfl, rfl, rfl⟩

/-- Where the code and the rule of the specification agree: the percentage is truthy, or it
is missing and the fraction is present. -/
theorem confidenceOf_eq_spec (result : JSVal)
    (hr : (result.field "confidence_percentage").truthy = true ∨
      (result.field "confidence_percentage" = .undefined ∧
        result.field "confidence" ≠ .undefined)) :
    confidenceOf h result = specConfidencePercent h result := by
  unfold confidenceOf specConfidencePercent
  rcases hr with hr | ⟨hr1, hr2⟩
  · rw [if_pos hr]
    cases hcp : result.field "confidence_percentage" with
    | undefined => simp [hcp, JSVal.truthy] at hr
    | _ => rfl
  · rw [hr1]
    simp only [JSVal.truthy, Bool.false_eq_true, if_false]

end Rendering

/-! ## Conversions of scalars -/

section Conversions

variable (h : Host)

/-- The conversion `ToString` of a primitive does not throw. -/
theorem toStr_of_isPrimitive (v : JSVal) (hv : v.isPrimitive = true) :
    ∃ t, v.toStr h = some t := by
  cases v with
  | undefined => exact ⟨_, by rw [JSVal.toStr]⟩
  | null => exact ⟨_, by rw [JSVal.toStr]⟩
  | bool b => exact ⟨_, by rw [JSVal.toStr]⟩
  | num n => exact ⟨_, by rw [JSVal.toStr]⟩
  | str t => exact ⟨_, by rw [JSVal.toStr]⟩
  | arr xs => simp [JSVal.isPrimitive] at hv
  | obj fields => simp [JSVal.isPrimitive] at hv

/-- The conversion `ToNumber` of a primitive does not throw. -/
theorem toNumber_of_isPrimitive (v : JSVal) (hv : v.isPrimitive = true) :
    ∃ n, v.toNumber h = some n := by
  cases v with
  | undefined => exact ⟨_, rfl⟩
  | null => exact ⟨_, rfl⟩
  | bool b => exact ⟨_, rfl⟩
  | num n => exact ⟨_, rfl⟩
  | str t => exact ⟨_, rfl⟩
  | arr xs => simp [JSVal.isPrimitive] at hv
  | obj fields => simp [JSVal.isPrimitive] at hv

/-- The operator `||` keeps primitives primitive. -/
theorem isPrimitive_or (a b : JSVal) (ha : a.isPrimitive = true) (hb : b.isPrimitive = true) :
    (a.or b).isPrimitive = true := by
  unfold JSVal.or
  split <;> assumption

/-- Line 105 does not throw when the field `confidence` is a scalar or missing. -/
theorem confidenceOf_of_isPrimitive (result : JSVal)
    (hc : (result.field "confidence").isPrimitive = true) :
    ∃ confidence, confidenceOf h result = some confidence := by
  unfold confidenceOf
  split
  · exact ⟨_, rfl⟩
  · obtain ⟨n, hn⟩ := toNumber_of_isPrimitive h _ hc
    exact ⟨.num (n.mul (JSNum.ofNat 100)), by simp [JSVal.times100, hn]⟩

/-- A response with a string sentiment and scalar fields is rendered without a throw. -/
theorem displayResults_of_scalarFields (s : SentimentAnalyzer) (result : JSVal) (t : String)
    (hg : result.get "sentiment" = some (.str t)) (hf : scalarFields result = true) :
    ∃ confidence language time,
      confidenceOf h result = some confidence ∧
      ((result.field "language_name").or (.str "Unknown")).toStr h = some language ∧
      ((result.field "processing_time").or (.num (JSNum.ofNat 0))).toStr h = some time ∧
      displayResults h s result =
        ⟨{ s with
            initialState_hidden := true
            loadingState_hidden := true
            resultsContent_hidden := false
            sentimentIcon_textContent := configIcon t
            sentimentLabel_textContent := capitalize h t
            sentimentLabel_className := "sentiment-label " ++ t
            timers := s.timers ++ [confidence]
            detectedLanguage_textContent := language
            processingTime_textContent := time ++ "s" }, false⟩ := by
  simp only [scalarFields, Bool.and_eq_true] at hf
  obtain ⟨⟨hc, hl⟩, hp⟩ := hf
  obtain ⟨confidence, hc2⟩ := confidenceOf_of_isPrimitive h result hc
  obtain ⟨language, hl2⟩ := toStr_of_isPrimitive h _ (isPrimitive_or _ (.str "Unknown") hl rfl)
  obtain ⟨time, hp2⟩ :=
    toStr_of_isPrimitive h _ (isPrimitive_or _ (.num (JSNum.ofNat 0)) hp rfl)
  exact ⟨confidence, language, time, hc2, hl2, hp2,
    displayResults_ok h s result confidence t language time hg hc2 hl2 hp2⟩

end Conversions

/-! ## Facts about the asynchronous method and the event loop -/

section Loop

variable (h : Host)

/-- Every failing end of `analyzeText` after the fetch: the `catch` and `finally` blocks. -/
theorem afterFetch_failure (s : SentimentAnalyzer) (response : Option Bool)
    (hr : response ≠ some true) :
    analyzeText_afterFetch s response = (finallyBlock (catchBlock s), false) := by
  cases response with
  | none => rfl
  | some ok =>
    cases ok with
    | false => rfl
    | true => exact absurd rfl hr

/-- The flag is false after the last segment, whatever the body is. -/
theorem afterJson_isAnalyzing (s : SentimentAnalyzer) (body : Option JSVal) :
    (analyzeText_afterJson h s body).isAnalyzing = false := by
  unfold analyzeText_afterJson
  cases body with
  | none => rfl
  | some result =>
    simp only
    split <;> rfl

/-- The text of the input is untouched by the last segment. -/
theorem afterJson_textInput (s : SentimentAnalyzer) (body : Option JSVal) :
    (analyzeText_afterJson h s body).textInput_value = s.textInput_value := by
  unfold analyzeText_afterJson
  cases body with
  | none => rfl
  | some result =>
    simp only
    split
    · simp [(displayResults_frame h s result).2.2.1]
    · simp [(displayResults_frame h s result).2.2.1]

/-- The button after the last segment. -/
theorem afterJson_button (s : SentimentAnalyzer) (body : Option JSVal) :
    (analyzeText_afterJson h s body).analyzeBtn_textContent = "Analyze Sentiment" ∧
      (analyzeText_afterJson h s body).analyzeBtn_disabled =
        !decide (0 < (trim s.textInput_value).length) := by
  unfold analyzeText_afterJson
  cases body with
  | none => exact finallyBlock_button _
  | some result =>
    simp only
    split
    · have := finallyBlock_button (catchBlock (displayResults h s result).state)
      simpa [(displayResults_frame h s result).2.2.1] using this
    · have := finallyBlock_button (displayResults h s result).state
      simpa [(displayResults_frame h s result).2.2.1] using this

/-- One panel is shown after the last segment. -/
theorem afterJson_onePanel (s : SentimentAnalyzer) (body : Option JSVal) :
    onePanel (analyzeText_afterJson h s body) := by
  unfold analyzeText_afterJson
  cases body with
  | none => exact Or.inl (panelIdle_of_same (finallyBlock_samePanels _) (panelIdle_catchBlock s))
  | some result =>
    simp only
    split
    · exact Or.inl (panelIdle_of_same (finallyBlock_samePanels _) (panelIdle_catchBlock _))
    · exact Or.inr (Or.inr (panelResult_of_same (finallyBlock_samePanels _)
        (displayResults_frame h s result).1))

/-- The flag is set at the first `await` of a call that passed the guard. -/
theorem analyzeText_isAnalyzing (s : SentimentAnalyzer) (hd : dispatches s = true) :
    (analyzeText s).isAnalyzing = true := by
  rw [analyzeText_of_dispatches s hd]
  rfl

/-- The call of `analyzeText` keeps the flag of a state in which it is set. -/
theorem analyzeText_isAnalyzing_of_set (s : SentimentAnalyzer) (hs : s.isAnalyzing = true) :
    analyzeText s = s ∧ dispatches s = false := by
  have hd : dispatches s = false := (dispatches_eq_false_iff s).2 (Or.inr hs)
  exact ⟨analyzeText_of_not_dispatches s hd, hd⟩

/-- The page just constructed satisfies the single-flight invariant. -/
theorem singleFlight_construct (dom : SentimentAnalyzer) : singleFlight (construct dom) := by
  simp [singleFlight, construct]

/-- Every turn of the event loop keeps the single-flight invariant. -/
theorem singleFlight_step (p : Page) (e : Event) (hp : singleFlight p) :
    singleFlight (step h p e) := by
  obtain ⟨hle, hiff⟩ := hp
  cases e with
  | analyze =>
    by_cases hd : dispatches p.app = true
    · have hfalse : p.app.isAnalyzing = false := ((dispatches_eq_true_iff _).1 hd).2
      have h0 : p.awaitingFetch + p.awaitingJson ≠ 1 := fun h1 => by
        have := hiff.2 h1
        simp [hfalse] at this
      have hset := analyzeText_isAnalyzing p.app hd
      simp only [singleFlight, step, hd, if_true, hset, true_iff]
      omega
    · have hd2 : dispatches p.app = false := by simpa using hd
      simp only [singleFlight, step, hd2, analyzeText_of_not_dispatches _ hd2]
      exact ⟨by simpa using hle, by simpa using hiff⟩
  | clear => exact ⟨hle, by simpa [step, clearAll_isAnalyzing] using hiff⟩
  | input value => exact ⟨hle, by simpa [step] using hiff⟩
  | fetchSettled response =>
    by_cases h0 : p.awaitingFetch = 0
    · simpa [step, h0, singleFlight] using And.intro hle hiff
    · by_cases hr : response = some true
      · subst hr
        simp only [singleFlight, step, h0, if_false, analyzeText_afterFetch, if_true]
        constructor
        · omega
        · rw [hiff]
          omega
      · simp only [singleFlight, step, h0, if_false, afterFetch_failure _ _ hr,
          finallyBlock_isAnalyzing]
        simp only [Bool.false_eq_true, if_false, false_iff]
        omega
  | jsonSettled body =>
    by_cases h0 : p.awaitingJson = 0
    · simpa [step, h0, singleFlight] using And.intro hle hiff
    · simp only [singleFlight, step, h0, if_false, afterJson_isAnalyzing]
      simp only [Bool.false_eq_true, false_iff]
      omega
  | timeout =>
    refine ⟨hle, ?_⟩
    have : (fireTimer h p.app).isAnalyzing = p.app.isAnalyzing := by
      unfold fireTimer
      split
      · rfl
      · split <;> rfl
    simpa [step, this] using hiff

/-- Every page the event loop reaches satisfies the single-flight invariant. -/
theorem singleFlight_run (p : Page) (events : List Event) (hp : singleFlight p) :
    singleFlight (run h p events) := by
  induction events generalizing p with
  | nil => exact hp
  | cons e es ih => exact ih (step h p e) (singleFlight_step h p e hp)

end Loop

section Whole

variable (h : Host)

/-- The panels shown in each of the three states. -/
theorem shownPanels_of_idle {s : SentimentAnalyzer} (hs : panelIdle s) :
    shownPanels s = ["initialState"] := by
  obtain ⟨h1, h2, h3⟩ := hs
  simp [shownPanels, h1, h2, h3]

theorem shownPanels_of_loading {s : SentimentAnalyzer} (hs : panelLoading s) :
    shownPanels s = ["loadingState"] := by
  obtain ⟨h1, h2, h3⟩ := hs
  simp [shownPanels, h1, h2, h3]

theorem shownPanels_of_result {s : SentimentAnalyzer} (hs : panelResult s) :
    shownPanels s = ["resultsContent"] := by
  obtain ⟨h1, h2, h3⟩ := hs
  simp [shownPanels, h1, h2, h3]

/-- One panel in the sense of the three states is one entry in the list of shown panels. -/
theorem onePanel_iff (s : SentimentAnalyzer) : onePanel s ↔ (shownPanels s).length = 1 := by
  unfold onePanel panelIdle panelLoading panelResult shownPanels
  cases s.initialState_hidden <;> cases s.loadingState_hidden <;>
    cases s.resultsContent_hidden <;> simp

theorem shownPanels_of_same {a b : SentimentAnalyzer} (hab : samePanels a b) :
    shownPanels a = shownPanels b := by
  obtain ⟨h1, h2, h3⟩ := hab
  simp [shownPanels, h1, h2, h3]

/-- The end of every failing call, from the state `s` in which the promise settles. -/
theorem failure_end (s : SentimentAnalyzer) :
    (finallyBlock (catchBlock s)).alerts = s.alerts ++ [failureMessage] ∧
      panelIdle (finallyBlock (catchBlock s)) ∧
      (finallyBlock (catchBlock s)).isAnalyzing = false ∧
      (finallyBlock (catchBlock s)).fetches = s.fetches :=
  ⟨rfl, ⟨rfl, rfl, rfl⟩, rfl, rfl⟩

/-- The state at the first `await` of a call that passed the guard. -/
theorem analyzeText_dispatched (s : SentimentAnalyzer) (hd : dispatches s = true) :
    (analyzeText s).isAnalyzing = true ∧ panelLoading (analyzeText s) ∧
      (analyzeText s).fetches = s.fetches ++ [trim s.textInput_value] ∧
      (analyzeText s).alerts = s.alerts ∧
      (analyzeText s).textInput_value = s.textInput_value ∧
      (analyzeText s).timers = s.timers ∧
      (analyzeText s).analyzeBtn_disabled = true ∧
      (analyzeText s).analyzeBtn_textContent = "Analyzing..." := by
  rw [analyzeText_of_dispatches s hd]
  refine ⟨rfl, ⟨rfl, rfl, rfl⟩, rfl, rfl, rfl, rfl, ?_, ?_⟩
  · simp [updateAnalyzeButton, showLoadingState]
  · simp [updateAnalyzeButton, showLoadingState]

/-- A whole call that passed the guard, by the way the request ends. -/
theorem analyzeText_run_of_dispatches (s : SentimentAnalyzer) (r : NetResult)
    (hd : dispatches s = true) :
    analyzeText_run h s r =
      match r with
      | .json result => analyzeText_afterJson h (analyzeText s) (some result)
      | _ => finallyBlock (catchBlock (analyzeText s)) := by
  unfold analyzeText_run
  rw [if_pos hd]
  cases r <;> rfl

/-- A whole call the guard rejects changes nothing. -/
theorem analyzeText_run_of_not_dispatches (s : SentimentAnalyzer) (r : NetResult)
    (hd : dispatches s = false) : analyzeText_run h s r = s := by
  unfold analyzeText_run
  rw [if_neg (by simp [hd])]
  exact analyzeText_of_not_dispatches s hd

/-- A state whose flag is false accepts the next call with text. -/
theorem accepts_of_released (f : SentimentAnalyzer) (hf : f.isAnalyzing = false)
    (ht : trim f.textInput_value ≠ "") :
    dispatches f = true ∧ (analyzeText f).fetches = f.fetches ++ [trim f.textInput_value] := by
  have hd : dispatches f = true := (dispatches_eq_true_iff f).2 ⟨ht, hf⟩
  exact ⟨hd, (analyzeText_dispatched f hd).2.2.1⟩

/-- Every turn of the event loop keeps one panel shown. -/
theorem onePanel_step (p : Page) (e : Event) (hp : onePanel p.app) :
    onePanel (step h p e).app := by
  cases e with
  | analyze =>
    by_cases hd : dispatches p.app = true
    · exact Or.inr (Or.inl (analyzeText_dispatched p.app hd).2.1)
    · have hd2 : dispatches p.app = false := by simpa using hd
      simpa [step, analyzeText_of_not_dispatches _ hd2] using hp
  | clear => exact Or.inl (panelIdle_clearAll p.app)
  | input value => exact onePanel_of_same ⟨rfl, rfl, rfl⟩ hp
  | fetchSettled response =>
    by_cases h0 : p.awaitingFetch = 0
    · simpa [step, h0] using hp
    · by_cases hr : response = some true
      · subst hr
        simpa [step, h0, analyzeText_afterFetch] using hp
      · simp only [step, h0, if_false, afterFetch_failure _ _ hr]
        exact Or.inl (failure_end p.app).2.1
  | jsonSettled body =>
    by_cases h0 : p.awaitingJson = 0
    · simpa [step, h0] using hp
    · simp only [step, h0, if_false]
      exact afterJson_onePanel h p.app body
  | timeout =>
    have : samePanels (fireTimer h p.app) p.app := by
      unfold fireTimer
      split
      · exact ⟨rfl, rfl, rfl⟩
      · split <;> exact ⟨rfl, rfl, rfl⟩
    exact onePanel_of_same this hp

/-- Every page the event loop reaches shows one panel, when the first one does. -/
theorem onePanel_run (p : Page) (events : List Event) (hp : onePanel p.app) :
    onePanel (run h p events).app := by
  induction events generalizing p with
  | nil => exact hp
  | cons e es ih => exact ih (step h p e) (onePanel_step h p e hp)

/-- The last segment for a body that renders without a throw: the result is applied. -/
theorem afterJson_of_scalarFields (s : SentimentAnalyzer) (result : JSVal) (t : String)
    (hg : result.get "sentiment" = some (.str t)) (hf : scalarFields result = true) :
    analyzeText_afterJson h s (some result) = finallyBlock (displayResults h s result).state ∧
      (displayResults h s result).threw = false := by
  obtain ⟨confidence, language, time, -, -, -, hfull⟩ :=
    displayResults_of_scalarFields h s result t hg hf
  have hthrew : (displayResults h s result).threw = false := by rw [hfull]
  refine ⟨?_, hthrew⟩
  unfold analyzeText_afterJson
  simp [hthrew]

/-- The timer callback writes the bar width from the one pending percentage. -/
theorem fireTimer_width (s : SentimentAnalyzer) (percentage : JSVal) (w : String)
    (ht : s.timers = [percentage]) (hw : percentage.toStr h = some w) :
    (fireTimer h s).confidenceProgress_width = w ++ "%" ∧ (fireTimer h s).timers = [] := by
  simp [fireTimer, ht, hw]

end Whole

/-! ## Facts about doubles -/

section Numeric

theorem bitLenAux_zero (fuel : Nat) : bitLenAux fuel 0 = 0 := by
  cases fuel <;> simp [bitLenAux]

/-- The bit length brackets the number between two powers of two. -/
theorem bitLenAux_bounds (fuel : Nat) : ∀ n, n ≤ fuel →
    n < 2 ^ bitLenAux fuel n ∧ (n ≠ 0 → 2 ^ (bitLenAux fuel n - 1) ≤ n) := by
  induction fuel with
  | zero =>
    intro n hn
    have : n = 0 := by omega
    subst this
    simp [bitLenAux]
  | succ fuel ih =>
    intro n hn
    by_cases h0 : n = 0
    · subst h0
      simp [bitLenAux]
    · have hhalf : n / 2 ≤ fuel := by omega
      obtain ⟨hu, hl⟩ := ih (n / 2) hhalf
      simp only [bitLenAux, h0, if_false, Nat.add_sub_cancel]
      constructor
      · rw [Nat.pow_succ]
        omega
      · intro _
        by_cases h2 : n / 2 = 0
        · rw [h2, bitLenAux_zero]
          simp
          omega
        · have hl2 := hl h2
          have hb : bitLenAux fuel (n / 2) ≠ 0 := by
            intro hb
            rw [hb] at hu
            simp at hu
            exact h2 hu
          obtain ⟨b, hb2⟩ := Nat.exists_eq_succ_of_ne_zero hb
          rw [hb2] at hl2 ⊢
          simp only [Nat.succ_eq_add_one, Nat.add_sub_cancel] at hl2
          rw [Nat.pow_succ]
          omega

theorem lt_two_pow_bitLen (n : Nat) : n < 2 ^ bitLen n :=
  (bitLenAux_bounds n n (Nat.le_refl n)).1

theorem two_pow_bitLen_le (n : Nat) (hn : n ≠ 0) : 2 ^ (bitLen n - 1) ≤ n :=
  (bitLenAux_bounds n n (Nat.le_refl n)).2 hn

/-- The comparison `magLe` decides the order of the values. -/
theorem magLe_iff (m : Nat) (e : Int) (k : Nat) :
    magLe m e k = true ↔ (m : ℚ) * (2 : ℚ) ^ e ≤ k := by
  unfold magLe
  by_cases he : 0 ≤ e
  · obtain ⟨n, rfl⟩ := Int.eq_ofNat_of_zero_le he
    simp only [he, if_true, Int.toNat_ofNat, decide_eq_true_eq, zpow_natCast]
    constructor
    · intro hle
      exact_mod_cast hle
    · intro hle
      exact_mod_cast hle
  · have hneg : e = -((-e).toNat : Int) := by omega
    simp only [he, if_false, decide_eq_true_eq]
    rw [hneg, zpow_neg, zpow_natCast]
    have hpos : (0 : ℚ) < 2 ^ (-e).toNat := by positivity
    rw [← div_eq_mul_inv, div_le_iff₀ hpos]
    simp only [neg_neg, Int.toNat_ofNat]
    constructor
    · intro hle
      exact_mod_cast hle
    · intro hle
      exact_mod_cast hle

/-- Stripping trailing zero bits keeps the value. -/
theorem stripTwos_value (fuel : Nat) : ∀ (m : Nat) (e : Int),
    ((stripTwos fuel m e).1 : ℚ) * (2 : ℚ) ^ (stripTwos fuel m e).2 = (m : ℚ) * (2 : ℚ) ^ e := by
  induction fuel with
  | zero => intro m e; rfl
  | succ fuel ih =>
    intro m e
    by_cases hm : m % 2 = 0
    · simp only [stripTwos, hm, if_true]
      rw [ih (m / 2) (e + 1), zpow_add₀ (by norm_num : (2 : ℚ) ≠ 0), zpow_one]
      have hmm : m = 2 * (m / 2) := by omega
      have hq : (m : ℚ) = 2 * ((m / 2 : Nat) : ℚ) := by exact_mod_cast hmm
      rw [hq]
      ring
    · simp only [stripTwos, hm, if_false]

/-- The canonical form lies in `[0, k]` exactly when the sign and the value allow it. -/
theorem normal_within (neg : Bool) (m : Nat) (e : Int) (k : Nat)
    (hs : neg = false ∨ m = 0) (hle : (m : ℚ) * (2 : ℚ) ^ e ≤ k) :
    (JSNum.normal neg m e).within k = true := by
  unfold JSNum.normal
  by_cases hm : m = 0
  · simp [hm, JSNum.within, magLe]
  · have hneg : neg = false := by
      rcases hs with hs | hs
      · exact hs
      · exact absurd hs hm
    simp only [hm, if_false, JSNum.within, hneg, Bool.not_false, Bool.true_or, Bool.true_and]
    rw [magLe_iff, stripTwos_value]
    exact hle

theorem roundHalfEven_zero_shift (M : Nat) : roundHalfEven M 0 = M := by
  simp [roundHalfEven, Nat.mod_one]

theorem roundHalfEven_zero (s : Nat) : roundHalfEven 0 s = 0 := by
  have : 0 < 2 ^ s := Nat.pow_pos (by norm_num)
  simp [roundHalfEven, this]

/-- Rounding never crosses a point of the grid: below `N * 2^s` the quotient stays below
`N`. -/
theorem roundHalfEven_le (M s N : Nat) (hle : M ≤ N * 2 ^ s) : roundHalfEven M s ≤ N := by
  have hpos : 0 < 2 ^ s := Nat.pow_pos (by norm_num)
  have hq : M / 2 ^ s ≤ N := Nat.div_le_of_le_mul (by rw [Nat.mul_comm]; exact hle)
  have hdm := Nat.div_add_mod M (2 ^ s)
  have hr : M % 2 ^ s < 2 ^ s := Nat.mod_lt _ hpos
  rcases Nat.lt_or_ge (M / 2 ^ s) N with hlt | hge
  · unfold roundHalfEven
    simp only
    split
    · omega
    · split
      · omega
      · split <;> omega
  · have hqN : M / 2 ^ s = N := by omega
    have hr0 : M % 2 ^ s = 0 := by
      rw [hqN, Nat.mul_comm] at hdm
      omega
    unfold roundHalfEven
    simp only [hr0, Nat.mul_zero, hpos, if_true]
    omega

/-- Comparing powers of two compares the exponents. -/
theorem exponent_lt_of_pow_lt (x : Nat) (E : Int) (c : Nat)
    (hlt : (2 : ℚ) ^ x * (2 : ℚ) ^ E < (2 : ℚ) ^ c) : (x : Int) + E < c := by
  have h2 : (2 : ℚ) ≠ 0 := by norm_num
  rw [← zpow_natCast (2 : ℚ) x, ← zpow_add₀ h2, ← zpow_natCast (2 : ℚ) c] at hlt
  exact (zpow_lt_zpow_iff_right₀ (by norm_num : (1 : ℚ) < 2)).1 hlt

/-- A number below `2^c` in value has few bits for its exponent. -/
theorem bitLen_add_exponent_le (q : Nat) (E : Int) (k c : Nat) (hq : q ≠ 0)
    (hk : k < 2 ^ c) (hle : (q : ℚ) * (2 : ℚ) ^ E ≤ k) : (bitLen q : Int) + E ≤ c := by
  have hb := two_pow_bitLen_le q hq
  have hpos : (0 : ℚ) < (2 : ℚ) ^ E := by positivity
  have hbq : ((2 : ℚ) ^ (bitLen q - 1)) ≤ (q : ℚ) := by exact_mod_cast hb
  have hkq : (k : ℚ) < (2 : ℚ) ^ c := by exact_mod_cast hk
  have hlt : (2 : ℚ) ^ (bitLen q - 1) * (2 : ℚ) ^ E < (2 : ℚ) ^ c :=
    lt_of_le_of_lt (le_trans (mul_le_mul_of_nonneg_right hbq hpos.le) hle) hkq
  have := exponent_lt_of_pow_lt _ _ _ hlt
  have hb1 : 1 ≤ bitLen q := by
    by_contra hcon
    have h0 : bitLen q = 0 := by omega
    have := lt_two_pow_bitLen q
    rw [h0] at this
    omega
  omega

/-- The shift that `round` applies is zero, or it lands at an exponent of at most 0, for a
value below `2^53`. -/
theorem shift_exponent (M : Nat) (E : Int) (k : Nat) (hk : k < 2 ^ 53)
    (hle : (M : ℚ) * (2 : ℚ) ^ E ≤ k) :
    max (bitLen M - 53) (Int.toNat (-1074 - E)) = 0 ∨
      E + (max (bitLen M - 53) (Int.toNat (-1074 - E)) : Nat) ≤ 0 := by
  by_cases hM : M = 0
  · subst hM
    have : bitLen 0 = 0 := rfl
    rw [this]
    omega
  · have := bitLen_add_exponent_le M E k 53 hM hk hle
    omega

/-- The rounded value of a number in `[0, k]` is in `[0, k]`, for `k` below `2^53`: the
bound is a double itself, and rounding is monotone. -/
theorem round_within (neg : Bool) (M : Nat) (E : Int) (k : Nat) (hk : k < 2 ^ 53)
    (hs : neg = false ∨ M = 0) (hle : (M : ℚ) * (2 : ℚ) ^ E ≤ k) :
    (JSNum.round neg M E).within k = true := by
  have h2 : (2 : ℚ) ≠ 0 := by norm_num
  have hval : ∀ s : Nat, (s = 0 ∨ E + (s : Int) ≤ 0) →
      ((roundHalfEven M s : Nat) : ℚ) * (2 : ℚ) ^ (E + (s : Int)) ≤ k := by
    intro s hs0
    by_cases hz : s = 0
    · subst hz
      rw [roundHalfEven_zero_shift]
      simpa using hle
    · have hneg : E + (s : Int) ≤ 0 := by
        rcases hs0 with hs0 | hs0
        · exact absurd hs0 hz
        · exact hs0
      obtain ⟨n, hn⟩ := Int.eq_ofNat_of_zero_le (by omega : 0 ≤ -(E + (s : Int)))
      have hE : E = -((n + s : Nat) : Int) := by push_cast; omega
      have hMle : M ≤ (k * 2 ^ n) * 2 ^ s := by
        have hpos : (0 : ℚ) < (2 : ℚ) ^ (n + s) := by positivity
        have h1 : (M : ℚ) ≤ (k : ℚ) * (2 : ℚ) ^ (n + s) := by
          rw [hE, zpow_neg, zpow_natCast, ← div_eq_mul_inv, div_le_iff₀ hpos] at hle
          exact hle
        have h3 : (M : ℚ) ≤ ((k * 2 ^ n * 2 ^ s : Nat) : ℚ) := by
          push_cast
          rw [mul_assoc, ← pow_add]
          exact h1
        exact_mod_cast h3
      have hq := roundHalfEven_le M s (k * 2 ^ n) hMle
      have hq2 : ((roundHalfEven M s : Nat) : ℚ) ≤ ((k * 2 ^ n : Nat) : ℚ) := by
        exact_mod_cast hq
      have hEs : E + (s : Int) = -(n : Int) := by omega
      rw [hEs, zpow_neg, zpow_natCast]
      have hpos : (0 : ℚ) < (2 : ℚ) ^ n := by positivity
      rw [← div_eq_mul_inv, div_le_iff₀ hpos]
      push_cast at hq2
      exact hq2
  have hshift := shift_exponent M E k hk hle
  have hv := hval _ hshift
  unfold JSNum.round
  simp only
  have hno : ¬(roundHalfEven M (max (bitLen M - 53) (Int.toNat (-1074 - E))) ≠ 0 ∧
      1024 < (bitLen (roundHalfEven M (max (bitLen M - 53) (Int.toNat (-1074 - E)))) : Int) +
        (E + (max (bitLen M - 53) (Int.toNat (-1074 - E)) : Nat))) := by
    rintro ⟨hq0, hbig⟩
    have := bitLen_add_exponent_le _ _ k 53 hq0 hk hv
    omega
  rw [if_neg hno]
  apply normal_within _ _ _ _ _ hv
  rcases hs with hs | hs
  · exact Or.inl hs
  · right
    rw [hs, roundHalfEven_zero]

/-- The double `100`. -/
theorem ofNat_hundred : JSNum.ofNat 100 = .fin false 25 2 := by decide

/-- A fraction in `[0, 1]` times `100` is a percentage in `[0, 100]`, rounding included. -/
theorem mul_hundred_within (c : JSNum) (hc : c.within 1 = true) :
    (c.mul (JSNum.ofNat 100)).within 100 = true := by
  rw [ofNat_hundred]
  cases c with
  | nan => simp [JSNum.within] at hc
  | inf neg => simp [JSNum.within] at hc
  | fin neg m e =>
    simp only [JSNum.within, Bool.and_eq_true, Bool.or_eq_true, Bool.not_eq_true',
      beq_iff_eq] at hc
    obtain ⟨hsign, hmag⟩ := hc
    rw [magLe_iff] at hmag
    simp only [JSNum.mul]
    apply round_within _ _ _ _ (by norm_num)
    · rcases hsign with hsign | hsign
      · left
        simp [hsign]
      · right
        simp [hsign]
    · have h2 : (2 : ℚ) ≠ 0 := by norm_num
      rw [zpow_add₀ h2]
      push_cast
      have : (m : ℚ) * 25 * ((2 : ℚ) ^ e * (2 : ℚ) ^ (2 : Int)) = 100 * ((m : ℚ) * (2 : ℚ) ^ e) := by
        norm_num
        ring
      rw [this]
      push_cast at hmag
      linarith

end Numeric

/-! ## The claims -/

/-- C1: the single-flight guard of `analyzeText`.  In every state whose trimmed text is empty
or whose flag `isAnalyzing` is set, the call changes nothing at all and starts no request.  In
every state with text and the flag clear, it sets the flag, shows the loading panel, disables
the button and posts exactly one request, the trimmed text.  On every page the event loop
reaches, at most one call is pending, and while one is, a further `analyzeText` leaves the
page, its list of requests included, as it is. -/
theorem analyzeText_single_flight (h : Host) :
    (∀ s : SentimentAnalyzer, trim s.textInput_value = "" ∨ s.isAnalyzing = true →
      analyzeText s = s ∧ dispatches s = false) ∧
    (∀ s : SentimentAnalyzer, trim s.textInput_value ≠ "" → s.isAnalyzing = false →
      dispatches s = true ∧ (analyzeText s).isAnalyzing = true ∧
      shownPanels (analyzeText s) = ["loadingState"] ∧
      (analyzeText s).analyzeBtn_disabled = true ∧
      (analyzeText s).fetches = s.fetches ++ [trim s.textInput_value]) ∧
    (∀ (dom : SentimentAnalyzer) (events : List Event),
      (run h (construct dom) events).awaitingFetch +
        (run h (construct dom) events).awaitingJson ≤ 1 ∧
      (0 < (run h (construct dom) events).awaitingFetch +
          (run h (construct dom) events).awaitingJson →
        step h (run h (construct dom) events) .analyze = run h (construct dom) events)) := by
  refine ⟨?_, ?_, ?_⟩
  · intro s hs
    have hd : dispatches s = false := (dispatches_eq_false_iff s).2 hs
    exact ⟨analyzeText_of_not_dispatches s hd, hd⟩
  · intro s ht hf
    have hd : dispatches s = true := (dispatches_eq_true_iff s).2 ⟨ht, hf⟩
    obtain ⟨h1, h2, h3, -, -, -, h7, -⟩ := analyzeText_dispatched s hd
    exact ⟨hd, h1, shownPanels_of_loading h2, h7, h3⟩
  · intro dom events
    obtain ⟨hle, hiff⟩ := singleFlight_run h (construct dom) events (singleFlight_construct dom)
    refine ⟨hle, fun hpos => ?_⟩
    have hset : (run h (construct dom) events).app.isAnalyzing = true := hiff.2 (by omega)
    obtain ⟨hsame, hd⟩ := analyzeText_isAnalyzing_of_set _ hset
    simp [step, hsame, hd]

/-- C1, run on samples: blank text is rejected, a sentence is posted once, and a second call
while the first is pending changes nothing. -/
theorem analyzeText_single_flight_witness :
    (analyzeText (sampleDom "  ") = sampleDom "  " ∧ dispatches (sampleDom "  ") = false) ∧
    (analyzeText (sampleDom "I love this!")).fetches = ["I love this!"] ∧
    step sampleHost (run sampleHost (construct (sampleDom "I love this!")) [.analyze]) .analyze
      = run sampleHost (construct (sampleDom "I love this!")) [.analyze] :=
  ⟨(analyzeText_single_flight sampleHost).1 (sampleDom "  ") (Or.inl (by decide)),
   ((analyzeText_single_flight sampleHost).2.1 (sampleDom "I love this!")
      (by decide) (by decide)).2.2.2.2,
   ((analyzeText_single_flight sampleHost).2.2 (sampleDom "I love this!") [.analyze]).2
      (by decide)⟩

/-- C5: failure collapse.  A request that was dispatched and ends in a transport error, in a
response whose `ok` is false, or in a body that does not parse, surfaces the one message
`Failed to analyze text. Please try again.` once and ends Idle: only the initial panel shown
and `isAnalyzing` false.  The same holds from whatever state `s2` the page is in when the
promise settles. -/
theorem analyzeText_failure_collapse (h : Host) (s : SentimentAnalyzer) (r : NetResult)
    (hd : dispatches s = true)
    (hr : r = .transportError ∨ r = .badStatus ∨ r = .badBody) :
    ((analyzeText_run h s r).alerts = s.alerts ++ ["Failed to analyze text. Please try again."] ∧
      shownPanels (analyzeText_run h s r) = ["initialState"] ∧
      (analyzeText_run h s r).isAnalyzing = false ∧
      (analyzeText_run h s r).fetches = s.fetches ++ [trim s.textInput_value]) ∧
    (∀ s2 : SentimentAnalyzer, ∀ f : SentimentAnalyzer,
      (f = (analyzeText_afterFetch s2 none).1 ∨ f = (analyzeText_afterFetch s2 (some false)).1 ∨
        f = analyzeText_afterJson h s2 none) →
      f.alerts = s2.alerts ++ ["Failed to analyze text. Please try again."] ∧
      shownPanels f = ["initialState"] ∧ f.isAnalyzing = false) := by
  constructor
  · have hrun : analyzeText_run h s r = finallyBlock (catchBlock (analyzeText s)) := by
      rw [analyzeText_run_of_dispatches h s r hd]
      rcases hr with hr | hr | hr <;> subst hr <;> rfl
    obtain ⟨-, -, h3, h4, -⟩ := analyzeText_dispatched s hd
    obtain ⟨g1, g2, g3, g4⟩ := failure_end (analyzeText s)
    rw [hrun]
    refine ⟨?_, shownPanels_of_idle g2, g3, ?_⟩
    · rw [g1, h4]
      rfl
    · rw [g4, h3]
  · intro s2 f hf
    have hfe : f = finallyBlock (catchBlock s2) := by
      rcases hf with hf | hf | hf <;> exact hf
    obtain ⟨g1, g2, g3, -⟩ := failure_end s2
    rw [hfe]
    exact ⟨g1, shownPanels_of_idle g2, g3⟩

/-- C5, run on a sample: a transport error after `I love this!` was submitted. -/
theorem analyzeText_failure_collapse_witness :
    (analyzeText_run sampleHost (sampleDom "I love this!") .transportError).alerts
        = ["Failed to analyze text. Please try again."] ∧
      shownPanels (analyzeText_run sampleHost (sampleDom "I love this!") .transportError)
        = ["initialState"] ∧
      (analyzeText_run sampleHost (sampleDom "I love this!") .transportError).isAnalyzing
        = false :=
  have w := (analyzeText_failure_collapse sampleHost (sampleDom "I love this!") .transportError
    (by decide) (Or.inl rfl)).1
  ⟨w.1, w.2.1, w.2.2.1⟩

/-- C7: the analyzing flag is always released.  However a dispatched request ends (transport
error, `ok` false, unparsable body, a rendered result, or an exception thrown by
`displayResults`, which the body `null` for one provokes), and from whatever state `s` the
page is in when the promise settles, `isAnalyzing` is false when `analyzeText` completes, the
button is evaluated again (its label reset, disabled only without text), and a later call with
text passes the guard and posts its request. -/
theorem analyzing_flag_released (h : Host) (s : SentimentAnalyzer) :
    (∀ f : SentimentAnalyzer,
      (f = (analyzeText_afterFetch s none).1 ∨ f = (analyzeText_afterFetch s (some false)).1 ∨
        (∃ body, f = analyzeText_afterJson h s body)) →
      f.isAnalyzing = false ∧ f.analyzeBtn_textContent = "Analyze Sentiment" ∧
      f.analyzeBtn_disabled = !decide (0 < (trim f.textInput_value).length) ∧
      (trim f.textInput_value ≠ "" →
        dispatches f = true ∧ (analyzeText f).fetches = f.fetches ++ [trim f.textInput_value])) ∧
    (∀ r : NetResult, dispatches s = true →
      (analyzeText_run h s r).isAnalyzing = false ∧
      dispatches (analyzeText_run h s r) = true) ∧
    (displayResults h s .null).threw = true := by
  refine ⟨?_, ?_, rfl⟩
  · intro f hf
    have key : f.isAnalyzing = false ∧ f.analyzeBtn_textContent = "Analyze Sentiment" ∧
        f.analyzeBtn_disabled = !decide (0 < (trim f.textInput_value).length) := by
      rcases hf with hf | hf | ⟨body, hf⟩
      · rw [hf]
        exact ⟨rfl, finallyBlock_button _⟩
      · rw [hf]
        exact ⟨rfl, finallyBlock_button _⟩
      · rw [hf, afterJson_textInput]
        exact ⟨afterJson_isAnalyzing h s body, afterJson_button h s body⟩
    exact ⟨key.1, key.2.1, key.2.2, fun ht => accepts_of_released f key.1 ht⟩
  · intro r hd
    have htext : trim s.textInput_value ≠ "" := ((dispatches_eq_true_iff s).1 hd).1
    have hin : (analyzeText s).textInput_value = s.textInput_value :=
      (analyzeText_dispatched s hd).2.2.2.2.1
    rw [analyzeText_run_of_dispatches h s r hd]
    cases r with
    | json result =>
      simp only
      refine ⟨afterJson_isAnalyzing h _ _, (dispatches_eq_true_iff _).2 ⟨?_, ?_⟩⟩
      · rw [afterJson_textInput, hin]
        exact htext
      · exact afterJson_isAnalyzing h _ _
    | transportError =>
      exact ⟨rfl, (dispatches_eq_true_iff _).2 ⟨by simpa [hin] using htext, rfl⟩⟩
    | badStatus =>
      exact ⟨rfl, (dispatches_eq_true_iff _).2 ⟨by simpa [hin] using htext, rfl⟩⟩
    | badBody =>
      exact ⟨rfl, (dispatches_eq_true_iff _).2 ⟨by simpa [hin] using htext, rfl⟩⟩

/-- C7, run on a sample: the body `null` makes rendering throw, and the flag is false after
the call all the same. -/
theorem analyzing_flag_released_witness :
    (analyzeText_run sampleHost (sampleDom "I love this!") (.json .null)).isAnalyzing = false ∧
      dispatches (analyzeText_run sampleHost (sampleDom "I love this!") (.json .null)) = true :=
  (analyzing_flag_released sampleHost (sampleDom "I love this!")).2.1 (.json .null) (by decide)

/-- C10: mutually exclusive panels.  Whatever the three panels showed before, after
`showInitialState` only the initial panel is shown, after `showLoadingState` only the loading
panel, and after `displayResults` (whatever the body, thrown or not) only the results panel;
after `clearAll` only the initial panel.  A whole `analyzeText` that passed the guard ends
with exactly one panel shown, one that the guard rejected leaves the panels as they were, and
every page the event loop reaches from a document with one panel shown shows one panel. -/
theorem panels_mutually_exclusive (h : Host) (s : SentimentAnalyzer) :
    shownPanels (showInitialState s) = ["initialState"] ∧
    shownPanels (showLoadingState s) = ["loadingState"] ∧
    (∀ result, shownPanels (displayResults h s result).state = ["resultsContent"]) ∧
    shownPanels (clearAll s) = ["initialState"] ∧
    (∀ r : NetResult, dispatches s = true → (shownPanels (analyzeText_run h s r)).length = 1) ∧
    (∀ r : NetResult, dispatches s = false →
      shownPanels (analyzeText_run h s r) = shownPanels s) ∧
    (∀ events : List Event, (shownPanels s).length = 1 →
      (shownPanels (run h (construct s) events).app).length = 1) := by
  refine ⟨shownPanels_of_idle (panelIdle_showInitialState s),
    shownPanels_of_loading (panelLoading_showLoadingState s),
    fun result => shownPanels_of_result (displayResults_frame h s result).1,
    shownPanels_of_idle (panelIdle_clearAll s), ?_, ?_, ?_⟩
  · intro r hd
    rw [← onePanel_iff, analyzeText_run_of_dispatches h s r hd]
    cases r with
    | json result => exact afterJson_onePanel h _ _
    | transportError => exact Or.inl (failure_end _).2.1
    | badStatus => exact Or.inl (failure_end _).2.1
    | badBody => exact Or.inl (failure_end _).2.1
  · intro r hd
    rw [analyzeText_run_of_not_dispatches h s r hd]
  · intro events hs
    rw [← onePanel_iff] at hs ⊢
    apply onePanel_run
    exact onePanel_of_same ⟨rfl, rfl, rfl⟩ hs

/-- C10, run on samples: a sentence submitted and answered by `null`, blank text, and the
event trace submit, clear, settle. -/
theorem panels_mutually_exclusive_witness :
    (shownPanels (analyzeText_run sampleHost (sampleDom "I love this!") (.json .null))).length
        = 1 ∧
      shownPanels (analyzeText_run sampleHost (sampleDom "  ") .badStatus)
        = shownPanels (sampleDom "  ") ∧
      (shownPanels (run sampleHost (construct (sampleDom "I love this!"))
        [.analyze, .clear, .fetchSettled none]).app).length = 1 :=
  ⟨(panels_mutually_exclusive sampleHost (sampleDom "I love this!")).2.2.2.2.1
      (.json .null) (by decide),
   (panels_mutually_exclusive sampleHost (sampleDom "  ")).2.2.2.2.2.1 .badStatus (by decide),
   (panels_mutually_exclusive sampleHost (sampleDom "I love this!")).2.2.2.2.2.2
      [.analyze, .clear, .fetchSettled none] (by decide)⟩

/-- C2, as stated, fails.  For the response `sentiment: "positive", confidence_percentage: 0,
confidence: 0.5` the rule of the specification gives the percentage field, `0`, and the code
hands `50` to `updateConfidence`; for `sentiment: "positive"` alone the rule gives `0` and the
code hands over `NaN`. -/
theorem confidence_normalization_counterexample :
    (specConfidencePercent sampleHost zeroPercentResponse).map JSVal.asNum
        = some (some (JSNum.ofNat 0)) ∧
      (displayResults sampleHost (sampleDom "") zeroPercentResponse).state.timers.map JSVal.asNum
        = [some (JSNum.ofNat 50)] ∧
      JSNum.ofNat 50 ≠ JSNum.ofNat 0 ∧
      (specConfidencePercent sampleHost bareResponse).map JSVal.asNum
        = some (some (JSNum.ofNat 0)) ∧
      (displayResults sampleHost (sampleDom "") bareResponse).state.timers.map JSVal.asNum
        = [some JSNum.nan] := by
  decide

/-- C2, amended.  For every response whose sentiment is a string, so that `displayResults`
reaches line 105: the value passed to `updateConfidence` is `confidence_percentage` when that
field is truthy; otherwise, when `confidence` is present, it is `ToNumber(confidence) * 100`.
It is the value of the specified rule whenever the percentage is truthy, or is missing while
the fraction is present.  A percentage of `73` gives `73`, and a fraction of `0.42` without a
percentage gives `42`. -/
theorem confidence_normalization (h : Host) (s : SentimentAnalyzer) (result : JSVal)
    (t : String) (hg : result.get "sentiment" = some (.str t)) :
    ((result.field "confidence_percentage").truthy = true →
      (displayResults h s result).state.timers
        = s.timers ++ [result.field "confidence_percentage"]) ∧
    ((result.field "confidence_percentage").truthy = false →
      result.field "confidence" ≠ .undefined →
      ∀ n, (result.field "confidence").toNumber h = some n →
        (displayResults h s result).state.timers
          = s.timers ++ [.num (n.mul (JSNum.ofNat 100))]) ∧
    (((result.field "confidence_percentage").truthy = true ∨
        (result.field "confidence_percentage" = .undefined ∧
          result.field "confidence" ≠ .undefined)) →
      ∀ v, specConfidencePercent h result = some v →
        (displayResults h s result).state.timers = s.timers ++ [v]) ∧
    (result.field "confidence_percentage" = .num (JSNum.ofNat 73) →
      (displayResults h s result).state.timers = s.timers ++ [.num (JSNum.ofNat 73)]) ∧
    (result.field "confidence_percentage" = .undefined →
      result.field "confidence" = .num (JSNum.ofDecimal 42 2) →
        (displayResults h s result).state.timers = s.timers ++ [.num (JSNum.ofNat 42)]) := by
  have htrue : (result.field "confidence_percentage").truthy = true →
      (displayResults h s result).state.timers
        = s.timers ++ [result.field "confidence_percentage"] := by
    intro hcp
    apply displayResults_timers h s result _ t hg
    simp [confidenceOf, hcp]
  have hfalse : (result.field "confidence_percentage").truthy = false →
      ∀ n, (result.field "confidence").toNumber h = some n →
        (displayResults h s result).state.timers
          = s.timers ++ [.num (n.mul (JSNum.ofNat 100))] := by
    intro hcp n hn
    apply displayResults_timers h s result _ t hg
    simp [confidenceOf, hcp, JSVal.times100, hn]
  refine ⟨htrue, fun hcp _ => hfalse hcp, ?_, ?_, ?_⟩
  · intro hr v hv
    apply displayResults_timers h s result _ t hg
    rw [confidenceOf_eq_spec h result hr]
    exact hv
  · intro hcp
    have := htrue (by rw [hcp]; decide)
    rw [hcp] at this
    exact this
  · intro hcp hc
    have := hfalse (by rw [hcp]; rfl) (JSNum.ofDecimal 42 2) (by rw [hc]; rfl)
    have hmul : (JSNum.ofDecimal 42 2).mul (JSNum.ofNat 100) = JSNum.ofNat 42 := by decide
    rw [hmul] at this
    exact this

/-- C2 amended, run on the end-to-end response: the fraction `0.91` without a percentage
reaches `updateConfidence` as `91`. -/
theorem confidence_normalization_witness :
    (displayResults sampleHost (sampleDom "") sampleResponse).state.timers
      = [] ++ [.num ((JSNum.ofDecimal 91 2).mul (JSNum.ofNat 100))] :=
  (confidence_normalization sampleHost (sampleDom "") sampleResponse "positive" rfl).2.1
    rfl (fun hc => JSVal.noConfusion hc) (JSNum.ofDecimal 91 2) rfl

/-- C3, as stated, fails.  For `sentiment: "ecstatic"` the icon is the neutral one, and the
label is `Ecstatic`, not `Neutral`; for a response without a sentiment `displayResults` does
not complete: line 123 throws, and the label is not written. -/
theorem sentiment_fallback_counterexample :
    (displayResults sampleHost (sampleDom "") ecstaticResponse).state.sentimentLabel_textContent
        = "Ecstatic" ∧
      (displayResults sampleHost (sampleDom "") ecstaticResponse).state.sentimentLabel_textContent
        ≠ "Neutral" ∧
      (displayResults sampleHost (sampleDom "") ecstaticResponse).state.sentimentIcon_textContent
        = "\uF8FF\u00FC\u00F2\u00EA" ∧
      (displayResults sampleHost (sampleDom "") languageOnlyResponse).threw = true ∧
      (displayResults sampleHost (sampleDom "")
        languageOnlyResponse).state.sentimentLabel_textContent = "" := by
  decide

/-- C3, amended.  For every response whose sentiment is a string `t` and whose other fields
are scalars or missing, `displayResults` completes; the label is `t` with its first character
in upper case and the class is `sentiment-label t`.  When `t` is none of `positive`,
`negative`, `neutral` nor a name inherited from `Object.prototype`, the icon is the neutral
one; for `positive` the icon is the positive one and the label is `Positive`. -/
theorem sentiment_display (h : Host) (s : SentimentAnalyzer) (result : JSVal) (t : String)
    (hg : result.get "sentiment" = some (.str t)) (hf : scalarFields result = true) :
    (displayResults h s result).threw = false ∧
    (displayResults h s result).state.sentimentLabel_textContent = capitalize h t ∧
    (displayResults h s result).state.sentimentLabel_className = "sentiment-label " ++ t ∧
    (t ∉ ["positive", "negative", "neutral"] → t ∉ objectPrototypeKeys →
      (displayResults h s result).state.sentimentIcon_textContent
        = "\uF8FF\u00FC\u00F2\u00EA") ∧
    (t = "positive" →
      (displayResults h s result).state.sentimentIcon_textContent
          = "\uF8FF\u00FC\u00F2\u00E4" ∧
        (displayResults h s result).state.sentimentLabel_textContent = "Positive") := by
  obtain ⟨confidence, language, time, -, -, -, hfull⟩ :=
    displayResults_of_scalarFields h s result t hg hf
  obtain ⟨hicon, hlabel, hclass⟩ := displayResults_sentiment h s result t hg
  refine ⟨by rw [hfull], hlabel, hclass, ?_, ?_⟩
  · intro h1 h2
    rw [hicon]
    simp only [List.mem_cons, List.mem_singleton, not_or, List.not_mem_nil, or_false] at h1
    obtain ⟨n1, n2, n3⟩ := h1
    have hcontains : objectPrototypeKeys.contains t = false := by
      simpa using h2
    simp only [configIcon, sentimentConfig, List.lookup, hcontains]
    have e1 : (t == "positive") = false := by simpa using n1
    have e2 : (t == "negative") = false := by simpa using n2
    have e3 : (t == "neutral") = false := by simpa using n3
    simp [e1, e2, e3]
  · intro ht
    subst ht
    rw [hicon, hlabel]
    exact ⟨by decide, rfl⟩

/-- C3 amended, run on `sentiment: "ecstatic"`. -/
theorem sentiment_display_witness :
    (displayResults sampleHost (sampleDom "") ecstaticResponse).threw = false ∧
      (displayResults sampleHost (sampleDom "") ecstaticResponse).state.sentimentLabel_textContent
        = capitalize sampleHost "ecstatic" ∧
      (displayResults sampleHost (sampleDom "") ecstaticResponse).state.sentimentIcon_textContent
        = "\uF8FF\u00FC\u00F2\u00EA" :=
  have w := sentiment_display sampleHost (sampleDom "") ecstaticResponse "ecstatic" rfl
    (by decide)
  ⟨w.1, w.2.1, w.2.2.2.1 (by decide) (by decide)⟩

/-- C4, as stated, fails.  After `I love this!` is submitted and `clearAll` runs while the
request is pending, the page is Idle with the request still pending; when the response of the
end-to-end example then arrives, it is rendered: the results panel is the one shown. -/
theorem clear_is_final_counterexample :
    shownPanels (run sampleHost (construct (sampleDom "I love this!"))
        [.analyze, .clear]).app = ["initialState"] ∧
      (run sampleHost (construct (sampleDom "I love this!"))
        [.analyze, .clear]).awaitingFetch = 1 ∧
      shownPanels (run sampleHost (construct (sampleDom "I love this!"))
        [.analyze, .clear, .fetchSettled (some true), .jsonSettled (some sampleResponse)]).app
        = ["resultsContent"] ∧
      (run sampleHost (construct (sampleDom "I love this!"))
        [.analyze, .clear, .fetchSettled (some true),
          .jsonSettled (some sampleResponse)]).app.sentimentLabel_textContent = "Positive" := by
  decide

/-- C4, amended.  From every state `clearAll` leaves the interface Idle: only the initial
panel shown, the text emptied.  It does not cancel a pending request: `isAnalyzing` and the
pending call stay as they are, and when the pending request then completes with a success
response that renders (a string sentiment, scalar fields), the result is applied and the
results panel is the one shown. -/
theorem clearAll_idle_until_result (h : Host) :
    (∀ s : SentimentAnalyzer,
      shownPanels (clearAll s) = ["initialState"] ∧ (clearAll s).textInput_value = "" ∧
      (clearAll s).isAnalyzing = s.isAnalyzing) ∧
    (∀ (p : Page) (result : JSVal) (t : String),
      0 < p.awaitingJson → result.get "sentiment" = some (.str t) →
      scalarFields result = true →
      shownPanels (step h p .clear).app = ["initialState"] ∧
      (step h p .clear).awaitingJson = p.awaitingJson ∧
      shownPanels (step h (step h p .clear) (.jsonSettled (some result))).app
        = ["resultsContent"] ∧
      (step h (step h p .clear) (.jsonSettled (some result))).app.sentimentLabel_textContent
        = capitalize h t) ∧
    (∀ (p : Page) (result : JSVal) (t : String),
      0 < p.awaitingFetch → result.get "sentiment" = some (.str t) →
      scalarFields result = true →
      shownPanels (step h p .clear).app = ["initialState"] ∧
      (step h p .clear).awaitingFetch = p.awaitingFetch ∧
      shownPanels (run h (step h p .clear)
        [.fetchSettled (some true), .jsonSettled (some result)]).app = ["resultsContent"]) := by
  refine ⟨?_, ?_, ?_⟩
  · intro s
    exact ⟨shownPanels_of_idle (panelIdle_clearAll s), rfl, rfl⟩
  rotate_left
  · intro p result t hp hg hf
    have hp2 : ¬ (p.awaitingFetch = 0) := by omega
    obtain ⟨hafter, -⟩ := afterJson_of_scalarFields h (clearAll p.app) result t hg hf
    refine ⟨shownPanels_of_idle (panelIdle_clearAll p.app), rfl, ?_⟩
    simp only [run, List.foldl, step, hp2, if_false, analyzeText_afterFetch, if_true,
      Nat.add_one_ne_zero, hafter]
    exact shownPanels_of_result (panelResult_of_same (finallyBlock_samePanels _)
      (displayResults_frame h _ result).1)
  · intro p result t hp hg hf
    have hp2 : ¬ (p.awaitingJson = 0) := by omega
    obtain ⟨hafter, -⟩ := afterJson_of_scalarFields h (clearAll p.app) result t hg hf
    refine ⟨shownPanels_of_idle (panelIdle_clearAll p.app), rfl, ?_, ?_⟩
    · simp only [step, hp2, if_false, hafter]
      exact shownPanels_of_result (panelResult_of_same (finallyBlock_samePanels _)
        (displayResults_frame h _ result).1)
    · simp only [step, hp2, if_false, hafter]
      exact (displayResults_sentiment h (clearAll p.app) result t hg).2.1

/-- C4 amended, run on the page that waits for the body of the response when the clear
button is pressed. -/
theorem clearAll_idle_until_result_witness :
    shownPanels (step sampleHost (run sampleHost (construct (sampleDom "I love this!"))
        [.analyze, .fetchSettled (some true)]) .clear).app = ["initialState"] ∧
      shownPanels (step sampleHost (step sampleHost
        (run sampleHost (construct (sampleDom "I love this!"))
          [.analyze, .fetchSettled (some true)]) .clear)
        (.jsonSettled (some sampleResponse))).app = ["resultsContent"] :=
  have w := (clearAll_idle_until_result sampleHost).2.1
    (run sampleHost (construct (sampleDom "I love this!")) [.analyze, .fetchSettled (some true)])
    sampleResponse "positive" (by decide) rfl (by decide)
  ⟨w.1, w.2.2.1⟩

/-- C6, as stated, fails.  The response `sentiment: "positive", confidence_percentage: 150`
hands `150` to the confidence bar, and a response with neither field hands over `NaN`;
neither is in `[0, 100]`. -/
theorem confidence_range_counterexample :
    (displayResults sampleHost (sampleDom "") overResponse).state.timers.map JSVal.asNum
        = [some (JSNum.ofNat 150)] ∧
      (displayResults sampleHost (sampleDom "") overResponse).state.timers.map
        (JSVal.numWithin 100) = [false] ∧
      (displayResults sampleHost (sampleDom "") bareResponse).state.timers.map
        (JSVal.numWithin 100) = [false] := by
  decide

/-- C6, amended.  For every response whose sentiment is a string: when
`confidence_percentage` is a number other than zero in `[0, 100]`, the percentage handed to
the confidence bar is that number; when `confidence_percentage` is falsy or missing and
`confidence` is a number in `[0, 1]`, it is the double `confidence * 100`, which lies in
`[0, 100]`. -/
theorem confidence_range (h : Host) (s : SentimentAnalyzer) (result : JSVal) (t : String)
    (hg : result.get "sentiment" = some (.str t)) :
    (∀ n : JSNum, result.field "confidence_percentage" = .num n → n.truthy = true →
      n.within 100 = true →
      (displayResults h s result).state.timers = s.timers ++ [.num n] ∧
      (JSVal.num n).numWithin 100 = true) ∧
    (∀ c : JSNum, (result.field "confidence_percentage").truthy = false →
      result.field "confidence" = .num c → c.within 1 = true →
      (displayResults h s result).state.timers
        = s.timers ++ [.num (c.mul (JSNum.ofNat 100))] ∧
      (JSVal.num (c.mul (JSNum.ofNat 100))).numWithin 100 = true) := by
  constructor
  · intro n hcp htruthy hin
    refine ⟨?_, hin⟩
    apply displayResults_timers h s result _ t hg
    simp [confidenceOf, hcp, JSVal.truthy, htruthy]
  · intro c hcp hc hin
    refine ⟨?_, mul_hundred_within c hin⟩
    apply displayResults_timers h s result _ t hg
    simp [confidenceOf, hcp, hc, JSVal.times100, JSVal.toNumber]

/-- C6 amended, run on the end-to-end response, whose fraction is `0.91`. -/
theorem confidence_range_witness :
    (displayResults sampleHost (sampleDom "") sampleResponse).state.timers
        = [] ++ [.num ((JSNum.ofDecimal 91 2).mul (JSNum.ofNat 100))] ∧
      (JSVal.num ((JSNum.ofDecimal 91 2).mul (JSNum.ofNat 100))).numWithin 100 = true :=
  (confidence_range sampleHost (sampleDom "") sampleResponse "positive" rfl).2
    (JSNum.ofDecimal 91 2) rfl rfl (by decide)

/-- C9, as stated, fails.  For the response `language_name: "English"`, which has no
sentiment, line 123 throws before line 109 is reached: the language element keeps its old
text, here the empty one, and shows neither `English` nor, for the empty response,
`Unknown`. -/
theorem language_default_counterexample :
    (displayResults sampleHost (sampleDom "") languageOnlyResponse).threw = true ∧
      (displayResults sampleHost (sampleDom "")
        languageOnlyResponse).state.detectedLanguage_textContent = "" ∧
      (displayResults sampleHost (sampleDom "") (.obj [])).state.detectedLanguage_textContent
        = "" := by
  decide

/-- C9, amended.  For every response whose sentiment is a string and whose field
`confidence` is a scalar or missing, so that `displayResults` reaches line 109: the displayed
language is `language_name` when that is a string that is not empty, and is `Unknown` when
the field is missing or the empty string. -/
theorem language_default (h : Host) (s : SentimentAnalyzer) (result : JSVal) (t : String)
    (hg : result.get "sentiment" = some (.str t))
    (hc : (result.field "confidence").isPrimitive = true) :
    (∀ l : String, result.field "language_name" = .str l → l ≠ "" →
      (displayResults h s result).state.detectedLanguage_textContent = l) ∧
    ((result.field "language_name" = .undefined ∨ result.field "language_name" = .str "") →
      (displayResults h s result).state.detectedLanguage_textContent = "Unknown") := by
  obtain ⟨confidence, hconf⟩ := confidenceOf_of_isPrimitive h result hc
  constructor
  · intro l hl hne
    apply displayResults_language h s result confidence t l hg hconf
    have : (JSVal.str l).truthy = true := by simpa [JSVal.truthy] using hne
    rw [hl, JSVal.or, if_pos this]
    rw [JSVal.toStr]
  · intro hl
    apply displayResults_language h s result confidence t "Unknown" hg hconf
    rcases hl with hl | hl
    · rw [hl]
      rfl
    · rw [hl]
      rfl

/-- C9 amended, run on the end-to-end response and on the response with a sentiment only. -/
theorem language_default_witness :
    (displayResults sampleHost (sampleDom "") sampleResponse).state.detectedLanguage_textContent
        = "English" ∧
      (displayResults sampleHost (sampleDom "") bareResponse).state.detectedLanguage_textContent
        = "Unknown" :=
  ⟨(language_default sampleHost (sampleDom "") sampleResponse "positive" rfl (by decide)).1
      "English" rfl (by decide),
   (language_default sampleHost (sampleDom "") bareResponse "positive" rfl (by decide)).2
      (Or.inl rfl)⟩

/-- C8, as stated, fails.  For `I love this!` submitted from the freshly loaded page and the
success response `sentiment: "positive", language_name: (toString: null)`, which carries a
recognized sentiment, line 109 throws while it converts the language: the call ends Idle with
the failure alert, not in Result, and the language element keeps its old text. -/
theorem end_to_end_success_counterexample :
    dispatches (sampleDom "I love this!") = true ∧
      (displayResults sampleHost (analyzeText (sampleDom "I love this!"))
        objectLanguageResponse).threw = true ∧
      shownPanels (analyzeText_run sampleHost (sampleDom "I love this!")
        (.json objectLanguageResponse)) = ["initialState"] ∧
      shownPanels (analyzeText_run sampleHost (sampleDom "I love this!")
        (.json objectLanguageResponse)) ≠ ["resultsContent"] ∧
      (analyzeText_run sampleHost (sampleDom "I love this!")
        (.json objectLanguageResponse)).alerts = ["Failed to analyze text. Please try again."] ∧
      (analyzeText_run sampleHost (sampleDom "I love this!")
        (.json objectLanguageResponse)).detectedLanguage_textContent = "" := by
  decide

/-- C8, amended: end-to-end success.  For every input with text submitted while no request is
pending, and every success response with a recognized sentiment whose fields `confidence`,
`language_name` and `processing_time` are scalars or missing, the call ends in Result: only
the results panel shown, `isAnalyzing` false, the label the sentiment in title case with the
icon of that sentiment, the confidence handed to the bar the normalized one, the language and
the processing time those of the response (with their defaults), and no alert; when the timer
of `updateConfidence` then fires with no older timer pending, the width of the bar is the
text of that confidence followed by `%`.  For the response `sentiment: "positive",
confidence: 0.91, language_name: "English", processing_time: 0.12` the label is `Positive`,
the confidence `91` (and the width the text of `91` followed by `%`), the language `English`
and the time the text of `0.12` followed by `s`. -/
theorem end_to_end_success (h : Host) :
    (∀ (s : SentimentAnalyzer) (result : JSVal) (t : String),
      dispatches s = true → result.get "sentiment" = some (.str t) →
      (t = "positive" ∨ t = "negative" ∨ t = "neutral") → scalarFields result = true →
      shownPanels (analyzeText_run h s (.json result)) = ["resultsContent"] ∧
      (analyzeText_run h s (.json result)).isAnalyzing = false ∧
      (t = "positive" →
        (analyzeText_run h s (.json result)).sentimentLabel_textContent = "Positive" ∧
        (analyzeText_run h s (.json result)).sentimentIcon_textContent
          = "\uF8FF\u00FC\u00F2\u00E4") ∧
      (t = "negative" →
        (analyzeText_run h s (.json result)).sentimentLabel_textContent = "Negative" ∧
        (analyzeText_run h s (.json result)).sentimentIcon_textContent
          = "\uF8FF\u00FC\u00F2\u00FB") ∧
      (t = "neutral" →
        (analyzeText_run h s (.json result)).sentimentLabel_textContent = "Neutral" ∧
        (analyzeText_run h s (.json result)).sentimentIcon_textContent
          = "\uF8FF\u00FC\u00F2\u00EA") ∧
      (analyzeText_run h s (.json result)).timers.map some
        = s.timers.map some ++ [confidenceOf h result] ∧
      some (analyzeText_run h s (.json result)).detectedLanguage_textContent
        = ((result.field "language_name").or (.str "Unknown")).toStr h ∧
      some (analyzeText_run h s (.json result)).processingTime_textContent
        = (((result.field "processing_time").or (.num (JSNum.ofNat 0))).toStr h).map
          (fun time => time ++ "s") ∧
      (analyzeText_run h s (.json result)).alerts = s.alerts ∧
      (analyzeText_run h s (.json result)).fetches = s.fetches ++ [trim s.textInput_value] ∧
      (∀ (confidence : JSVal) (w : String), confidenceOf h result = some confidence →
        confidence.toStr h = some w → s.timers = [] →
        (fireTimer h (analyzeText_run h s (.json result))).confidenceProgress_width
          = w ++ "%")) ∧
    (∀ s : SentimentAnalyzer, dispatches s = true →
      shownPanels (analyzeText_run h s (.json sampleResponse)) = ["resultsContent"] ∧
      (analyzeText_run h s (.json sampleResponse)).isAnalyzing = false ∧
      (analyzeText_run h s (.json sampleResponse)).sentimentLabel_textContent = "Positive" ∧
      (analyzeText_run h s (.json sampleResponse)).sentimentIcon_textContent
        = "\uF8FF\u00FC\u00F2\u00E4" ∧
      (analyzeText_run h s (.json sampleResponse)).timers
        = s.timers ++ [.num (JSNum.ofNat 91)] ∧
      (analyzeText_run h s (.json sampleResponse)).detectedLanguage_textContent = "English" ∧
      (analyzeText_run h s (.json sampleResponse)).processingTime_textContent
        = h.numberToString (JSNum.ofDecimal 12 2) ++ "s" ∧
      (s.timers = [] →
        (fireTimer h (analyzeText_run h s (.json sampleResponse))).confidenceProgress_width
          = h.numberToString (JSNum.ofNat 91) ++ "%")) := by
  have hrun : ∀ (s : SentimentAnalyzer) (result confidence : JSVal) (t language time : String),
      dispatches s = true → result.get "sentiment" = some (.str t) →
      confidenceOf h result = some confidence →
      ((result.field "language_name").or (.str "Unknown")).toStr h = some language →
      ((result.field "processing_time").or (.num (JSNum.ofNat 0))).toStr h = some time →
      analyzeText_run h s (.json result) =
        finallyBlock
          { analyzeText s with
            initialState_hidden := true
            loadingState_hidden := true
            resultsContent_hidden := false
            sentimentIcon_textContent := configIcon t
            sentimentLabel_textContent := capitalize h t
            sentimentLabel_className := "sentiment-label " ++ t
            timers := (analyzeText s).timers ++ [confidence]
            detectedLanguage_textContent := language
            processingTime_textContent := time ++ "s" } := by
    intro s result confidence t language time hd hg hc hl hp
    rw [analyzeText_run_of_dispatches h s _ hd]
    simp only [analyzeText_afterJson,
      displayResults_ok h (analyzeText s) result confidence t language time hg hc hl hp]
    simp
  constructor
  · intro s result t hd hg ht hf
    obtain ⟨confidence, language, time, hc, hl, hp, -⟩ :=
      displayResults_of_scalarFields h s result t hg hf
    obtain ⟨-, -, hfetch, halerts, -, htimers, -, -⟩ := analyzeText_dispatched s hd
    rw [hrun s result confidence t language time hd hg hc hl hp, hc, hl, hp]
    refine ⟨shownPanels_of_result ⟨rfl, rfl, rfl⟩, rfl, ?_, ?_, ?_, ?_, rfl, rfl, ?_, ?_, ?_⟩
    · intro h1
      subst h1
      exact ⟨rfl, rfl⟩
    · intro h1
      subst h1
      exact ⟨rfl, rfl⟩
    · intro h1
      subst h1
      exact ⟨rfl, rfl⟩
    · show ((analyzeText s).timers ++ [confidence]).map some = _
      rw [htimers]
      simp
    · exact halerts
    · exact hfetch
    · intro c w hcw hw hempty
      have hcc : confidence = c := by
        have := hcw
        simp only [Option.some.injEq] at this
        exact this
      subst hcc
      refine (fireTimer_width h _ confidence w ?_ hw).1
      show (analyzeText s).timers ++ [confidence] = [confidence]
      rw [htimers, hempty]
      rfl
  · intro s hd
    obtain ⟨-, -, -, -, -, htimers, -, -⟩ := analyzeText_dispatched s hd
    rw [hrun s sampleResponse (.num (JSNum.ofNat 91)) "positive" "English"
      (h.numberToString (JSNum.ofDecimal 12 2)) hd rfl rfl rfl rfl]
    refine ⟨shownPanels_of_result ⟨rfl, rfl, rfl⟩, rfl, rfl, rfl, ?_, rfl, rfl, ?_⟩
    · show (analyzeText s).timers ++ _ = _
      rw [htimers]
    · intro hempty
      refine (fireTimer_width h _ (.num (JSNum.ofNat 91))
        (h.numberToString (JSNum.ofNat 91)) ?_ ?_).1
      · show (analyzeText s).timers ++ _ = _
        rw [htimers, hempty]
        rfl
      · rw [JSVal.toStr]

/-- C8 amended, run on the end-to-end example: `I love this!` submitted from the freshly
loaded page and answered by the sample response, then the timer of the bar. -/
theorem end_to_end_success_witness :
    shownPanels (analyzeText_run sampleHost (sampleDom "I love this!") (.json sampleResponse))
        = ["resultsContent"] ∧
      (analyzeText_run sampleHost (sampleDom "I love this!")
        (.json sampleResponse)).isAnalyzing = false ∧
      (analyzeText_run sampleHost (sampleDom "I love this!")
        (.json sampleResponse)).sentimentLabel_textContent = "Positive" ∧
      (analyzeText_run sampleHost (sampleDom "I love this!")
        (.json sampleResponse)).sentimentIcon_textContent = "\uF8FF\u00FC\u00F2\u00E4" ∧
      (analyzeText_run sampleHost (sampleDom "I love this!")
        (.json sampleResponse)).timers = [] ++ [.num (JSNum.ofNat 91)] ∧
      (analyzeText_run sampleHost (sampleDom "I love this!")
        (.json sampleResponse)).detectedLanguage_textContent = "English" ∧
      (analyzeText_run sampleHost (sampleDom "I love this!")
        (.json sampleResponse)).processingTime_textContent = "0.12s" ∧
      (fireTimer sampleHost (analyzeText_run sampleHost (sampleDom "I love this!")
        (.json sampleResponse))).confidenceProgress_width = "91%" :=
  have w := (end_to_end_success sampleHost).2 (sampleDom "I love this!") (by decide)
  ⟨w.1, w.2.1, w.2.2.1, w.2.2.2.1, w.2.2.2.2.1, w.2.2.2.2.2.1, w.2.2.2.2.2.2.1,
    w.2.2.2.2.2.2.2 rfl⟩

end SentimentEngine
